import Mathlib

/-!
# Verification of the HAPI line-shape engine and spectral synthesis loop

Shallow embedding of the core routines of `hapi/hapi.py` (HITRAN Application
Programming Interface): the robust grid generator `arange_`, the Weideman
complex-probability evaluator `hum1_wei`/`cef`, the degenerate branch of the
HT-profile core `pcqsdhc`, the keyword-call convention of the profile
adapters, the parameter-resolution ladder (`environGetArguments`, `ladder`,
`calculate_parameter_*`), the wing computation and the windowed accumulation
step of `absorptionCoefficient_Generic`.

Python floats are embedded as exact rationals `ℚ`; the transcendental float
operations (`**`, `exp`, `sqrt`) and the irrational constants imported from
the package's `constants` module (`pi`, `ln 2`, ...) are abstracted into a
context structure `Ctx` of opaque rational stand-ins, so every definition
stays executable and the control-flow/branching claims are proved for all
values of those stand-ins.  Complex values are pairs of rationals (`CQ`).
Python exceptions are modelled with `Except PyErr`.
-/

namespace Hapi

/-- Complex numbers with rational parts: the embedding of Python/numpy
complex arithmetic used by the line-shape routines. -/
structure CQ where
  re : ℚ
  im : ℚ
deriving DecidableEq

namespace CQ

/-- Real rational as a complex value. -/
def ofQ (q : ℚ) : CQ := ⟨q, 0⟩

/-- The imaginary unit `1j`. -/
def I : CQ := ⟨0, 1⟩

def add (z w : CQ) : CQ := ⟨z.re + w.re, z.im + w.im⟩

def sub (z w : CQ) : CQ := ⟨z.re - w.re, z.im - w.im⟩

def neg (z : CQ) : CQ := ⟨-z.re, -z.im⟩

def mul (z w : CQ) : CQ := ⟨z.re * w.re - z.im * w.im, z.re * w.im + z.im * w.re⟩

/-- Squared modulus `re² + im²` (used to express magnitude comparisons
`abs z ≤ c` as `normSq z ≤ c²`, which keeps everything inside `ℚ`). -/
def normSq (z : CQ) : ℚ := z.re * z.re + z.im * z.im

/-- Complex division via the conjugate; division by `0` yields `0`
(the usual field-convention junk value, never hit in the claims). -/
def div (z w : CQ) : CQ :=
  ⟨(z.re * w.re + z.im * w.im) / normSq w, (z.im * w.re - z.re * w.im) / normSq w⟩

instance : Zero CQ := ⟨⟨0, 0⟩⟩

instance : One CQ := ⟨⟨1, 0⟩⟩

instance : Add CQ := ⟨add⟩

instance : Sub CQ := ⟨sub⟩

instance : Neg CQ := ⟨neg⟩

instance : Mul CQ := ⟨mul⟩

instance : Div CQ := ⟨div⟩

/-- `z ^ n` for natural `n` (Horner-style repeated multiplication). -/
def npow (z : CQ) : ℕ → CQ
  | 0 => 1
  | n + 1 => mul (npow z n) z

instance : HPow CQ ℕ CQ := ⟨npow⟩

end CQ

/-!
## Wavenumber grid construction (`arange_`, hapi.py lines 93-100)

`linspace` is numpy's uniform grid: `n` points from `a` to `b` inclusive
(exact in rational arithmetic; numpy additionally pins the endpoint, which
the exact formula already achieves).
-/

/-- Embedding of `numpy.linspace(a, b, n)` (external library collaborator):
`n` evenly spaced points from `a` to `b`, endpoints included. -/
def linspace (a b : ℚ) (n : ℤ) : List ℚ :=
  if n ≤ 0 then []
  else if n = 1 then [a]
  else (List.range n.toNat).map fun i : ℕ => a + (i : ℚ) * ((b - a) / ((n : ℚ) - 1))

/-- Embedding of `arange_(lower, upper, step)` (hapi.py lines 93-100): the
"robust" range generator with endpoint-correction. -/
def arange_ (lower upper step : ℚ) : List ℚ :=
  let npnt : ℤ := ⌊(upper - lower) / step⌋ + 1
  let upper_new : ℚ := lower + step * ((npnt : ℚ) - 1)
  if |upper - upper_new - step| < 1 / 10 ^ 10 then
    linspace lower (upper_new + step) (npnt + 1)
  else
    linspace lower upper_new npnt

end Hapi

namespace Hapi

/-- The uniform grid `[a, a+s, ..., a+(m-1)s]`, the closed form of what
`arange_` produces. -/
def gridList (a s : ℚ) (m : ℕ) : List ℚ :=
  (List.range m).map fun i : ℕ => a + (i : ℚ) * s

/-!
## The Weideman CPF evaluator (`cef` / `hum1_wei`, hapi.py lines 4894-4928)

`cef(x, y, N)` first builds, from `N` alone, a scale `L = sqrt(N/sqrt 2)`
and a real coefficient vector `a` by an FFT of samples of
`exp(-t²)(L²+t²)`; both are irrational constants determined by `N`, so the
embedding takes `L` and `a` as parameters and keeps the subsequent exact
rational-polynomial evaluation.  `1/sqrt(pi)` is likewise the parameter
`rpiInv`.
-/

/-- `numpy.polyval(a, x)`: Horner evaluation of the polynomial whose
coefficients (highest degree first) are the real list `a`. -/
def polyvalC (a : List ℚ) (x : CQ) : CQ :=
  a.foldl (fun y v => y * x + CQ.ofQ v) 0

/-- One point of `cef` (hapi.py lines 4894-4909): given the précomputed
scale `L` and Fourier coefficients `a`, evaluate
`w = 2·p(Z)/(L-iz)² + (1/sqrt pi)/(L-iz)` at `Z = (L+iz)/(L-iz)`,
`z = x + iy`. -/
def cefPoint (L : ℚ) (a : List ℚ) (rpiInv : ℚ) (xi yi : ℚ) : CQ :=
  let z : CQ := ⟨xi, yi⟩
  let lz : CQ := CQ.ofQ L - CQ.I * z
  let Zc : CQ := (CQ.ofQ L + CQ.I * z) / lz
  let p : CQ := polyvalC a Zc
  CQ.ofQ 2 * p / (lz * lz) + CQ.ofQ rpiInv / lz

/-- Vectorised `cef` over equal-length coordinate lists. -/
def cef (L : ℚ) (a : List ℚ) (rpiInv : ℚ) (x y : List ℚ) : List CQ :=
  (x.zip y).map fun p => cefPoint L a rpiInv p.1 p.2

/-- The cheap closed-form approximation of `hum1_wei`:
`cerf = (1/sqrt pi) · t/(0.5+t²)` with `t = y - i·x`. -/
def hum1Point (rpiInv : ℚ) (xi yi : ℚ) : CQ :=
  let t : CQ := ⟨yi, -xi⟩
  CQ.ofQ rpiInv * (t / (CQ.ofQ (1 / 2) + t * t))

/-- Select the elements of `l` at the positions where `mask` is `true`
(numpy boolean-mask indexing `l[mask]`). -/
def maskFilter {α : Type} : List α → List Bool → List α
  | [], _ => []
  | _, [] => []
  | v :: vs, b :: bs => if b then v :: maskFilter vs bs else maskFilter vs bs

/-- `numpy.place(cerf, mask, vals)`: overwrite the entries of `cerf` at the
`true` positions of `mask` with successive elements of `vals` (in
`hum1_wei`, `vals` has exactly as many elements as `mask` has `true`s). -/
def place {α : Type} : List α → List Bool → List α → List α
  | [], _, _ => []
  | cs, [], _ => cs
  | c :: cs, b :: bs, ws =>
    if b then
      match ws with
      | [] => c :: place cs bs []
      | w :: ws2 => w :: place cs bs ws2
    else c :: place cs bs ws

/-- Embedding of `hum1_wei(x, y, n)` (hapi.py lines 4915-4926), the active
CPF implementation: compute the closed form everywhere, then override the
indices with `|x|+y < 15` by the Weideman evaluation of the compacted
subarrays, scattered back in place; return real and imaginary parts. -/
def hum1_wei (L : ℚ) (a : List ℚ) (rpiInv : ℚ) (x y : List ℚ) : List ℚ × List ℚ :=
  let cerf : List CQ := (x.zip y).map fun p => hum1Point rpiInv p.1 p.2
  let mask : List Bool := (x.zip y).map fun p => decide (|p.1| + p.2 < 15)
  let cerf2 : List CQ :=
    if mask.any id then
      place cerf mask (cef L a rpiInv (maskFilter x mask) (maskFilter y mask))
    else cerf
  (cerf2.map CQ.re, cerf2.map CQ.im)

/-!
## The degenerate branch of the HT profile core
(`pcqsdhc`, hapi.py lines 4976-5004, "PART1", taken when `abs(c2t) == 0`)

`cte = sqrt(ln 2)/GammaD` and `rpi = sqrt(pi)` are irrational scalars and
enter as parameters, as does the active CPF implementation
`VARIABLES['CPF']` (a per-point function of `(-Im Z1, Re Z1)`).  The
magnitude test `abs(Z1) <= 4.0e3` is expressed equivalently on squared
moduli to stay within `ℚ`.
-/

/-- The direct (small-`|Z1|`) `Bterm` formula of the degenerate branch,
applied at a single point: `sqrt(pi)·cte·((1-Z1²)·w(Z1) + Z1/sqrt(pi))`. -/
def bTermDirect (rpi cte : ℚ) (z w : CQ) : CQ :=
  CQ.ofQ (rpi * cte) * ((1 - z * z) * w + z / CQ.ofQ rpi)

/-- The asymptotic (large-`|Z1|`) `Bterm` formula of the degenerate branch,
applied at a single point: `cte·(sqrt(pi)·w(Z1) + 0.5/Z1 - 0.75/Z1³)`. -/
def bTermAsymp (rpi cte : ℚ) (z w : CQ) : CQ :=
  CQ.ofQ cte * (CQ.ofQ rpi * w + CQ.ofQ (1 / 2) / z - CQ.ofQ (3 / 4) / (z * z * z))

/-- The `c2t == 0` branch of `pcqsdhc`: returns
`(Aterm_GLOBAL, Bterm_GLOBAL)`.  Faithful to the source, the two `Bterm`
assignments are whole-array assignments guarded by `any(index_Z1)` /
`any(~index_Z1)`; the computed per-point masks are not used for indexing. -/
def pcqsdhcPart1 (cpf : ℚ → ℚ → CQ) (rpi cte : ℚ) (sg0 : ℚ) (c0t : CQ) (sg : List ℚ) :
    List CQ × List CQ :=
  let Z1 : List CQ := sg.map fun s => (CQ.I * CQ.ofQ (sg0 - s) + c0t) * CQ.ofQ cte
  let W : List CQ := Z1.map fun z => cpf (-z.im) z.re
  let AtermGlobal : List CQ := W.map fun w => CQ.ofQ (rpi * cte) * w
  let indexZ1 : List Bool := Z1.map fun z => decide (CQ.normSq z ≤ 4000 * 4000)
  let B0 : List CQ := List.replicate sg.length 0
  let direct : List CQ := (Z1.zip W).map fun p => bTermDirect rpi cte p.1 p.2
  let asymp : List CQ := (Z1.zip W).map fun p => bTermAsymp rpi cte p.1 p.2
  let B1 : List CQ := if indexZ1.any id then direct else B0
  let B2 : List CQ := if indexZ1.any (fun b => !b) then asymp else B1
  (AtermGlobal, B2)

/-!
## Python exceptions

The error values that the embedded code can raise (`Except PyErr`):
`KeyError`, `NameError` (reference to an undefined variable), `TypeError`
(keyword-call mismatch), and the typed parameter-resolution failure
`Exception('not found in DB: ...')` carrying the missing column names.
-/

inductive PyErr
  | keyError (k : String)
  | nameError (k : String)
  | typeError (msg : String)
  | notFoundInDB (cols : List String)
deriving DecidableEq

/-!
## Wing computation of the synthesis loop
(`absorptionCoefficient_Generic`, hapi.py lines 6669-6681)
-/

/-- Default relative wing in halfwidths (`DefaultOmegaWingHW`, line 6422). -/
def DefaultOmegaWingHW : ℚ := 50

/-- Default absolute wing substituted by `getDefaultValuesForXsect` when the
caller passes no `OmegaWing` (line 6471). -/
def DefaultOmegaWing : ℚ := 0

/-- Embedding of the per-line wing computation (lines 6669-6681): read
`GammaD`/`Gamma0` from the resolved parameters (the `try/except KeyError`
yields 0 when absent), take `GammaMax = max(Gamma0, GammaD)`, overwrite
`OmegaWing` with the fixed 10 cm-1 default (and signal a warning, the
returned Boolean) exactly when `GammaMax == 0 and OmegaWingHW == 0`, and
return `OmegaWingF = max(OmegaWing, OmegaWingHW*GammaMax)`. -/
def wingOfLine (paramsGammaD paramsGamma0 : Option ℚ) (OmegaWing OmegaWingHW : ℚ) :
    ℚ × Bool :=
  let GammaD : ℚ := paramsGammaD.getD 0
  let Gamma0 : ℚ := paramsGamma0.getD 0
  let GammaMax : ℚ := max Gamma0 GammaD
  let ow : ℚ × Bool :=
    if GammaMax = 0 ∧ OmegaWingHW = 0 then ((10 : ℚ), true) else (OmegaWing, false)
  (max ow.1 (OmegaWingHW * GammaMax), ow.2)

/-!
## Windowed accumulation of one line
(`absorptionCoefficient_Generic`, hapi.py lines 6684-6688)
-/

/-- `bisect.bisect` (= `bisect_right`) on a sorted list: the number of
elements `≤ x`, i.e. the insertion index after any run of entries equal to
`x` (specification of the Python standard-library binary search, an
external collaborator). -/
def bisect (xs : List ℚ) (x : ℚ) : ℕ :=
  xs.countP fun v => decide (v ≤ x)

/-- The in-place slice addition `Xsect[lo:hi] += factor*vals` (line 6688):
entries outside `[lo, hi)` are reproduced unchanged, entries inside get the
elementwise contribution added. -/
def addSlice (Xsect : List ℚ) (lo hi : ℕ) (factor : ℚ) (vals : List ℚ) : List ℚ :=
  Xsect.take lo ++
    (List.zipWith (fun a b => a + factor * b) ((Xsect.drop lo).take (hi - lo)) vals) ++
    Xsect.drop (max lo hi)

/-- One line's accumulation step (lines 6684-6688): locate the sub-range
`[nu-wing, nu+wing]` of the sorted grid by binary search and add the
profile values (times the unit-conversion `factor`) into that slice of the
output accumulator. -/
def lineAccumulate (Omegas Xsect : List ℚ) (factor nu wing : ℚ) (vals : List ℚ) :
    List ℚ :=
  addSlice Xsect (bisect Omegas (nu - wing)) (bisect Omegas (nu + wing)) factor vals

/-!
## Keyword-call convention of the profile adapters
(hapi.py lines 5248-5256 and 6686-6688)

The synthesis loop invokes `profile(**PARAMETERS)`.  The adapters are plain
Python `def`s without `**kwargs`, so Python's keyword-binding semantics
apply: every keyword must match a declared parameter name (otherwise
`TypeError: unexpected keyword argument`), and every declared parameter
must be bound by a keyword or carry a default.
-/

/-- A Python value passed by keyword: a float scalar or the wavenumber
array. -/
inductive PyVal
  | num (q : ℚ)
  | arr (xs : List ℚ)
deriving DecidableEq

/-- One declared parameter of a Python `def`: its name and optional default
value. -/
structure ParamDecl where
  pname : String
  dflt : Option PyVal
deriving DecidableEq

def lookupKw (kwargs : List (String × PyVal)) (k : String) : Option PyVal :=
  (kwargs.find? fun kv => kv.1 == k).map Prod.snd

/-- Bind each declared parameter from the keyword dict or its default. -/
def bindParams (kwargs : List (String × PyVal)) :
    List ParamDecl → Except PyErr (List (String × PyVal))
  | [] => .ok []
  | p :: ps =>
    match lookupKw kwargs p.pname with
    | some v => (bindParams kwargs ps).map fun rest => (p.pname, v) :: rest
    | none =>
      match p.dflt with
      | some d => (bindParams kwargs ps).map fun rest => (p.pname, d) :: rest
      | none => .error (.typeError ("missing required argument " ++ p.pname))

/-- Python keyword-call semantics for a `def` without `**kwargs`: reject any
keyword that is not a declared parameter name, then bind parameters. -/
def callKw (decl : List ParamDecl) (kwargs : List (String × PyVal)) :
    Except PyErr (List (String × PyVal)) :=
  match kwargs.find? (fun kv => !(decl.any fun p => p.pname == kv.1)) with
  | some kv => .error (.typeError ("unexpected keyword argument " ++ kv.1))
  | none => bindParams kwargs decl

def getNum (b : List (String × PyVal)) (k : String) : Except PyErr ℚ :=
  match lookupKw b k with
  | some (.num q) => .ok q
  | some (.arr _) => .error (.typeError ("expected scalar for " ++ k))
  | none => .error (.keyError k)

def getArr (b : List (String × PyVal)) (k : String) : Except PyErr (List ℚ) :=
  match lookupKw b k with
  | some (.arr xs) => .ok xs
  | some (.num _) => .error (.typeError ("expected array for " ++ k))
  | none => .error (.keyError k)

/-- `PROFILE_DOPPLER` (hapi.py lines 5248-5256).  `sqrtLn2divSqrtPi` and
`ln2` stand for the irrational constants `cSqrtLn2divSqrtPi` and `cLn2`
imported from the package's `constants` module; `fexp` stands for the float
`exp`. -/
def PROFILE_DOPPLER (fexp : ℚ → ℚ) (sqrtLn2divSqrtPi ln2 : ℚ)
    (Nu GammaD : ℚ) (WnGrid : List ℚ) (Sw : ℚ) : List ℚ :=
  WnGrid.map fun w => Sw * sqrtLn2divSqrtPi * fexp (-(ln2 * ((w - Nu) / GammaD) ^ 2)) / GammaD

/-- `PROFILE_LORENTZ` (hapi.py lines 5232-5246); `piq` stands for `pi`.
When `YRosen == 0` the simpler unmixed form is taken. -/
def PROFILE_LORENTZ (piq : ℚ) (Nu Gamma0 Delta0 : ℚ) (WnGrid : List ℚ)
    (YRosen Sw : ℚ) : List ℚ :=
  if YRosen = 0 then
    WnGrid.map fun w => Sw * Gamma0 / (piq * (Gamma0 ^ 2 + (w + Delta0 - Nu) ^ 2))
  else
    WnGrid.map fun w =>
      Sw * (Gamma0 + YRosen * (w + Delta0 - Nu)) / (piq * (Gamma0 ^ 2 + (w + Delta0 - Nu) ^ 2))

/-- Declared parameters of `def PROFILE_DOPPLER(Nu, GammaD, WnGrid, Sw=1.0)`. -/
def dopplerDecl : List ParamDecl :=
  [⟨"Nu", none⟩, ⟨"GammaD", none⟩, ⟨"WnGrid", none⟩, ⟨"Sw", some (.num 1)⟩]

/-- Declared parameters of
`def PROFILE_LORENTZ(Nu, Gamma0, Delta0, WnGrid, YRosen=0.0, Sw=1.0)`. -/
def lorentzDecl : List ParamDecl :=
  [⟨"Nu", none⟩, ⟨"Gamma0", none⟩, ⟨"Delta0", none⟩, ⟨"WnGrid", none⟩,
   ⟨"YRosen", some (.num 0)⟩, ⟨"Sw", some (.num 1)⟩]

/-- `PROFILE_DOPPLER(**kwargs)`: the keyword-style invocation used by the
synthesis loop (`profile(**PARAMETERS)`, line 6687). -/
def PROFILE_DOPPLER_kw (fexp : ℚ → ℚ) (sqrtLn2divSqrtPi ln2 : ℚ)
    (kwargs : List (String × PyVal)) : Except PyErr (List ℚ) := do
  let b ← callKw dopplerDecl kwargs
  let nu ← getNum b "Nu"
  let gd ← getNum b "GammaD"
  let grid ← getArr b "WnGrid"
  let sw ← getNum b "Sw"
  .ok (PROFILE_DOPPLER fexp sqrtLn2divSqrtPi ln2 nu gd grid sw)

/-- `PROFILE_LORENTZ(**kwargs)`. -/
def PROFILE_LORENTZ_kw (piq : ℚ) (kwargs : List (String × PyVal)) :
    Except PyErr (List ℚ) := do
  let b ← callKw lorentzDecl kwargs
  let nu ← getNum b "Nu"
  let g0 ← getNum b "Gamma0"
  let d0 ← getNum b "Delta0"
  let grid ← getArr b "WnGrid"
  let yr ← getNum b "YRosen"
  let sw ← getNum b "Sw"
  .ok (PROFILE_LORENTZ piq nu g0 d0 grid yr sw)

/-!
## Parameter-resolution ladder
(hapi.py lines 5267-5310, 5623-5677, 5955-6353)

The line context `TRANS` is a dict merging the database row with the
environment; here it is a structure whose `fields` hold the open-ended
broadening/shift columns.  The opaque float operations (`**`, `exp`,
`sqrt`), the ISO-table lookups `molecularMass`/`abundance` and the
constants imported from the package's `constants` module are collected into
a context `Ctx` of rational stand-ins, and the mutable global
`VARIABLES['abscoef_debug']` is its field `abscoefDebug`.  `CALC_INFO`
trace *writes* (mutations of a passed-in dict, pure debug accumulation) are
not modelled; the `CALC_INFO` *reads* performed by
`calculate_parameter_Eta`/`calculate_parameter_NuVC` act on an explicit
`CalcInfo` value, which the theorems quantify universally (covering every
state the writes could have produced). -/

/-- Stand-ins for the transcendental float operations and external
constants/tables used by the parameter functions. -/
structure Ctx where
  fpow : ℚ → ℚ → ℚ
  fexp : ℚ → ℚ
  fsqrt : ℚ → ℚ
  abscoefDebug : Bool
  molecularMass : Int → Int → ℚ
  abundance : Int → Int → ℚ
  cBolts : ℚ
  cc : ℚ
  ln2 : ℚ

/-- The per-line transition context `TRANS` (built at hapi.py line 6644):
the named numeric fields every line carries, the environment, the diluent
mixture, the abundances dict (`none` models `'Abundances' not in TRANS`),
and the open-ended set of database columns `fields`. -/
structure Trans where
  molec_id : Int
  local_iso_id : Int
  nu : ℚ
  sw : ℚ
  elower : ℚ
  T : ℚ
  p : ℚ
  T_ref : ℚ
  p_ref : ℚ
  SigmaT : ℚ
  SigmaT_ref : ℚ
  diluent : List (String × ℚ)
  abundances : Option (List ((Int × Int) × ℚ))
  fields : List (String × ℚ)

/-- `name in TRANS` / `TRANS[name]` for a database column.  (The source
additionally tests `TRANS[name] is np.ma.core.MaskedConstant`, comparing
with the *class*, which is never `True` for a stored value; embedded values
are plain rationals, so only presence matters.) -/
def transGet (t : Trans) (k : String) : Option ℚ :=
  (t.fields.find? fun kv => kv.1 == k).map Prod.snd

/-- `TRANS.get(name, default)`. -/
def transGetD (t : Trans) (k : String) (d : ℚ) : ℚ :=
  (transGet t k).getD d

/-- The abstract-argument dict `ARGS` built by `environGetArguments`. -/
abbrev Args := List (String × ℚ)

/-- One entry of the debug `INFO` dict: either a resolved argument record
`{'case', 'source', 'value'}` or the failure `'status'` string. -/
inductive InfoEntry
  | arg (casename source : String) (value : ℚ)
  | status (msg : String)
deriving DecidableEq

abbrev Info := List (String × InfoEntry)

/-- Dict assignment `d[k] = v` on an association list. -/
def assocSet {α : Type} (l : List (String × α)) (k : String) (v : α) : List (String × α) :=
  if l.any fun kv => kv.1 == k then
    l.map fun kv => if kv.1 == k then (k, v) else kv
  else l ++ [(k, v)]

def argsGet (args : Args) (k : String) : Option ℚ :=
  (args.find? fun kv => kv.1 == k).map Prod.snd

/-- One abstract argument of a lookup case: its name, the database column
it reads, and the optional declared default. -/
structure ArgSpec where
  argname : String
  dbname : String
  dflt : Option ℚ
deriving DecidableEq

/-- One lookup case (`{'__case__': name, arg: {'name': col, 'default': d}, ...}`). -/
structure LookupCase where
  casename : String
  args : List ArgSpec
deriving DecidableEq

/-- Result of processing one lookup case. -/
structure CaseResult where
  args : Args
  info : Info
  missing : List String
  flag : Bool

/-- The per-case inner loop of `environGetArguments` (hapi.py lines
5651-5672): resolve each abstract argument from the line record or its
default, collect the `INFO` record when debug is on, and on a missing
column append its name and set the failure flag (the loop continues, so one
case can report several missing columns).  `args0` is the `ARGS` dict,
threaded across cases exactly as in the source (where `ARGS = aux_args`
aliases one dict for the whole call). -/
def envCaseStep (dbg : Bool) (t : Trans) (c : LookupCase) (args0 : Args) : CaseResult :=
  c.args.foldl
    (fun acc a =>
      match transGet t a.dbname with
      | some v =>
        { acc with
          args := assocSet acc.args a.argname v
          info := if dbg then assocSet acc.info a.argname (.arg c.casename a.dbname v)
                  else acc.info }
      | none =>
        match a.dflt with
        | some d =>
          { acc with
            args := assocSet acc.args a.argname d
            info := if dbg then assocSet acc.info a.argname (.arg c.casename "<default>" d)
                    else acc.info }
        | none => { acc with missing := acc.missing ++ [a.dbname], flag := true })
    ⟨args0, [], [], false⟩

/-- The case loop of `environGetArguments` (hapi.py lines 5641-5677): try
the lookup cases in order, accumulating `params_not_found` across *all*
failed cases; the first case with no missing column returns its
`(INFO, ARGS)`; if every case fails, raise the typed failure
`Exception('not found in DB: ...')` listing the accumulated missing column
names. -/
def environGetArgumentsGo (dbg : Bool) (t : Trans) :
    List LookupCase → Args → List String → Except PyErr (Info × Args)
  | [], _, notFound => .error (.notFoundInDB notFound)
  | c :: cs, args, notFound =>
    let r := envCaseStep dbg t c args
    if r.flag then environGetArgumentsGo dbg t cs r.args (notFound ++ r.missing)
    else .ok (r.info, r.args)

def environGetArguments (dbg : Bool) (cases : List LookupCase) (auxArgs : Args) (t : Trans) :
    Except PyErr (Info × Args) :=
  environGetArgumentsGo dbg t cases auxArgs []

/-- `environDependenceFn_PowerLaw` (hapi.py lines 5681-5685):
`Par_ref * (T_ref/T)**TempRatioPower * p/p_ref`. -/
def environDependenceFn_PowerLaw (ctx : Ctx) (Par_ref TempRatioPower T T_ref p p_ref : ℚ) : ℚ :=
  Par_ref * ctx.fpow (T_ref / T) TempRatioPower * (p / p_ref)

/-- `environDependenceFn_LinearLaw` (hapi.py lines 5687-5691):
`(Par_ref + Coef*(T-T_ref)) * p/p_ref`. -/
def environDependenceFn_LinearLaw (Par_ref Coef T T_ref p p_ref : ℚ) : ℚ :=
  (Par_ref + Coef * (T - T_ref)) * (p / p_ref)

def requireArg (args : Args) (k : String) : Except PyErr ℚ :=
  match argsGet args k with
  | some v => .ok v
  | none => .error (.typeError ("missing argument " ++ k))

/-- `depfunc(**ARGS)` for the power law: Python keyword binding of
`environDependenceFn_PowerLaw`. -/
def depPowerLaw (ctx : Ctx) (args : Args) : Except PyErr ℚ :=
  if args.all fun kv =>
      ["Par_ref", "TempRatioPower", "T", "T_ref", "p", "p_ref"].contains kv.1 then do
    let a ← requireArg args "Par_ref"
    let n ← requireArg args "TempRatioPower"
    let T ← requireArg args "T"
    let Tr ← requireArg args "T_ref"
    let p ← requireArg args "p"
    let pr ← requireArg args "p_ref"
    .ok (environDependenceFn_PowerLaw ctx a n T Tr p pr)
  else .error (.typeError "unexpected keyword argument")

/-- `depfunc(**ARGS)` for the linear law. -/
def depLinearLaw (args : Args) : Except PyErr ℚ :=
  if args.all fun kv => ["Par_ref", "Coef", "T", "T_ref", "p", "p_ref"].contains kv.1 then do
    let a ← requireArg args "Par_ref"
    let c ← requireArg args "Coef"
    let T ← requireArg args "T"
    let Tr ← requireArg args "T_ref"
    let p ← requireArg args "p"
    let pr ← requireArg args "p_ref"
    .ok (environDependenceFn_LinearLaw a c T Tr p pr)
  else .error (.typeError "unexpected keyword argument")

/-- The `SDVoigt Gamma2 dimensionless` lambda (hapi.py line 6281):
`PowerLaw(gamma0*sd, n, T, T_ref, p, p_ref)`. -/
def depSDGamma2Dimensionless (ctx : Ctx) (args : Args) : Except PyErr ℚ :=
  if args.all fun kv => ["gamma0", "sd", "n", "T", "T_ref", "p", "p_ref"].contains kv.1 then do
    let g0 ← requireArg args "gamma0"
    let sd ← requireArg args "sd"
    let n ← requireArg args "n"
    let T ← requireArg args "T"
    let Tr ← requireArg args "T_ref"
    let p ← requireArg args "p"
    let pr ← requireArg args "p_ref"
    .ok (environDependenceFn_PowerLaw ctx (g0 * sd) n T Tr p pr)
  else .error (.typeError "unexpected keyword argument")

/-- `get_T_ref_for_HT_multitemp` (hapi.py lines 5955-5964): bucket the
actual temperature into the reference temperatures `{50,150,296,700}`;
when no range matches (negative `T`) the loop leaves the last value 700. -/
def get_T_ref_for_HT_multitemp (T : ℚ) : ℚ :=
  if 0 ≤ T ∧ T < 100 then 50
  else if 100 ≤ T ∧ T < 200 then 150
  else if 200 ≤ T ∧ T < 400 then 296
  else 700

/-- The `'%d' % T_ref` column-name suffix.  Every embedded call site passes
one of the four reference temperatures that occur in the source (50, 150,
296, 700). -/
def fmtTref (q : ℚ) : String :=
  if q = 50 then "50"
  else if q = 150 then "150"
  else if q = 296 then "296"
  else if q = 700 then "700"
  else ""

/-- The common auxiliary arguments `{'T':…, 'T_ref':…, 'p':…, 'p_ref':…}`. -/
def auxArgsOf (t : Trans) (T_ref p_ref : ℚ) : Args :=
  [("T", t.T), ("T_ref", T_ref), ("p", t.p), ("p_ref", p_ref)]

/-- `environGetArguments_Lorentz_Gamma0_default` (hapi.py lines 5697-5726),
shared by the Lorentz and Voigt `Gamma0` presets: case `Lorentz 1` reads
`gamma_<broadener>`/`n_<broadener>`, case `Lorentz 2` falls back to
`n_air`; neither column has a default. -/
def environGetArguments_Lorentz_Gamma0_default (ctx : Ctx) (broadener : String) (t : Trans) :
    Except PyErr (Info × Args) :=
  environGetArguments ctx.abscoefDebug
    [⟨"Lorentz 1", [⟨"Par_ref", "gamma_" ++ broadener, none⟩,
                    ⟨"TempRatioPower", "n_" ++ broadener, none⟩]⟩,
     ⟨"Lorentz 2", [⟨"Par_ref", "gamma_" ++ broadener, none⟩,
                    ⟨"TempRatioPower", "n_air", none⟩]⟩]
    (auxArgsOf t 296 1) t

/-- `environGetArguments_Lorentz_Delta0_default` (hapi.py lines 5730-5752):
`delta_<broadener>`/`deltap_<broadener>`, both defaulting to 0. -/
def environGetArguments_Lorentz_Delta0_default (ctx : Ctx) (broadener : String) (t : Trans) :
    Except PyErr (Info × Args) :=
  environGetArguments ctx.abscoefDebug
    [⟨"Lorentz 1", [⟨"Par_ref", "delta_" ++ broadener, some 0⟩,
                    ⟨"Coef", "deltap_" ++ broadener, some 0⟩]⟩]
    (auxArgsOf t 296 1) t

/-- `environGetArguments_Lorentz_YRosen_default` (hapi.py lines 5756-5778):
`y_<broadener>`/`n_y_<broadener>`, both defaulting to 0. -/
def environGetArguments_Lorentz_YRosen_default (ctx : Ctx) (broadener : String) (t : Trans) :
    Except PyErr (Info × Args) :=
  environGetArguments ctx.abscoefDebug
    [⟨"Lorentz 1", [⟨"Par_ref", "y_" ++ broadener, some 0⟩,
                    ⟨"TempRatioPower", "n_y_" ++ broadener, some 0⟩]⟩]
    (auxArgsOf t 296 1) t

/-- `environGetArguments_SDVoigt_Gamma0_default` (hapi.py lines 5788-5809). -/
def environGetArguments_SDVoigt_Gamma0_default (ctx : Ctx) (broadener : String) (t : Trans) :
    Except PyErr (Info × Args) :=
  environGetArguments ctx.abscoefDebug
    [⟨"SDVoigt 1", [⟨"Par_ref", "gamma_SDV_0_" ++ broadener ++ "_" ++ fmtTref 296, none⟩,
                    ⟨"TempRatioPower", "n_SDV_" ++ broadener ++ "_" ++ fmtTref 296, some 0⟩]⟩]
    (auxArgsOf t 296 1) t

/-- `environGetArguments_SDVoigt_Delta0_default` (hapi.py lines 5813-5833). -/
def environGetArguments_SDVoigt_Delta0_default (ctx : Ctx) (broadener : String) (t : Trans) :
    Except PyErr (Info × Args) :=
  environGetArguments ctx.abscoefDebug
    [⟨"SDVoigt 1", [⟨"Par_ref", "delta_SDV_0_" ++ broadener ++ "_" ++ fmtTref 296, none⟩,
                    ⟨"Coef", "deltap_SDV_" ++ broadener ++ "_" ++ fmtTref 296, none⟩]⟩]
    (auxArgsOf t 296 1) t

/-- `environGetArguments_SDVoigt_Gamma2_default` (hapi.py lines 5837-5858). -/
def environGetArguments_SDVoigt_Gamma2_default (ctx : Ctx) (broadener : String) (t : Trans) :
    Except PyErr (Info × Args) :=
  environGetArguments ctx.abscoefDebug
    [⟨"SDVoigt 1", [⟨"Par_ref", "gamma_SDV_2_" ++ broadener ++ "_" ++ fmtTref 296, none⟩,
                    ⟨"TempRatioPower", "n_gamma_SDV_2_" ++ broadener ++ "_" ++ fmtTref 296,
                     some 0⟩]⟩]
    (auxArgsOf t 296 1) t

/-- `environGetArguments_SDVoigt_Gamma2_dimensionless` (hapi.py lines
5860-5897): two cases on `gamma_<b>`/`SD_<b>` with `n_SD_<b>` then
`n_SD_air`. -/
def environGetArguments_SDVoigt_Gamma2_dimensionless (ctx : Ctx) (broadener : String)
    (t : Trans) : Except PyErr (Info × Args) :=
  environGetArguments ctx.abscoefDebug
    [⟨"SDVoigt 1", [⟨"gamma0", "gamma_" ++ broadener, none⟩,
                    ⟨"sd", "SD_" ++ broadener, none⟩,
                    ⟨"n", "n_SD_" ++ broadener, some 0⟩]⟩,
     ⟨"SDVoigt 2", [⟨"gamma0", "gamma_" ++ broadener, none⟩,
                    ⟨"sd", "SD_" ++ broadener, none⟩,
                    ⟨"n", "n_SD_air", some 0⟩]⟩]
    (auxArgsOf t 296 1) t

/-- `environGetArguments_SDVoigt_Delta2_default` (hapi.py lines 5901-5923). -/
def environGetArguments_SDVoigt_Delta2_default (ctx : Ctx) (broadener : String) (t : Trans) :
    Except PyErr (Info × Args) :=
  environGetArguments ctx.abscoefDebug
    [⟨"SDVoigt 1", [⟨"Par_ref", "delta_SDV_2_" ++ broadener ++ "_" ++ fmtTref 296, some 0⟩,
                    ⟨"Coef", "deltap_SDV_2_" ++ broadener ++ "_" ++ fmtTref 296, some 0⟩]⟩]
    (auxArgsOf t 296 1) t

/-- `environGetArguments_SDVoigt_YRosen_default` (hapi.py lines 5927-5949). -/
def environGetArguments_SDVoigt_YRosen_default (ctx : Ctx) (broadener : String) (t : Trans) :
    Except PyErr (Info × Args) :=
  environGetArguments ctx.abscoefDebug
    [⟨"Lorentz 1", [⟨"Par_ref", "Y_SDV_" ++ broadener ++ "_" ++ fmtTref 296, some 0⟩,
                    ⟨"TempRatioPower", "n_Y_SDV_" ++ broadener ++ "_" ++ fmtTref 296, some 0⟩]⟩]
    (auxArgsOf t 296 1) t

/-- `environGetArguments_HT_Gamma0_default` (hapi.py lines 5966-5987):
fixed `T_ref = 296`, columns `gamma_HT_0_<b>_296` / `n_HT_<b>_296` (the
power defaults to 0). -/
def environGetArguments_HT_Gamma0_default (ctx : Ctx) (broadener : String) (t : Trans) :
    Except PyErr (Info × Args) :=
  environGetArguments ctx.abscoefDebug
    [⟨"HT 1", [⟨"Par_ref", "gamma_HT_0_" ++ broadener ++ "_" ++ fmtTref 296, none⟩,
               ⟨"TempRatioPower", "n_HT_" ++ broadener ++ "_" ++ fmtTref 296, some 0⟩]⟩]
    (auxArgsOf t 296 1) t

/-- `environGetArguments_HT_Gamma0_multitemp` (hapi.py lines 5989-6012):
as the default preset but with `T_ref` bucketed from the actual `T`, which
changes the column names (`gamma_HT_0_<b>_<T_ref>`). -/
def environGetArguments_HT_Gamma0_multitemp (ctx : Ctx) (broadener : String) (t : Trans) :
    Except PyErr (Info × Args) :=
  let T_ref := get_T_ref_for_HT_multitemp t.T
  environGetArguments ctx.abscoefDebug
    [⟨"HT 1", [⟨"Par_ref", "gamma_HT_0_" ++ broadener ++ "_" ++ fmtTref T_ref, none⟩,
               ⟨"TempRatioPower", "n_HT_" ++ broadener ++ "_" ++ fmtTref T_ref, some 0⟩]⟩]
    (auxArgsOf t T_ref 1) t

/-- `environGetArguments_HT_Delta0_default` (hapi.py lines 6016-6036). -/
def environGetArguments_HT_Delta0_default (ctx : Ctx) (broadener : String) (t : Trans) :
    Except PyErr (Info × Args) :=
  environGetArguments ctx.abscoefDebug
    [⟨"HT 1", [⟨"Par_ref", "delta_HT_0_" ++ broadener ++ "_" ++ fmtTref 296, none⟩,
               ⟨"Coef", "deltap_HT_" ++ broadener ++ "_" ++ fmtTref 296, none⟩]⟩]
    (auxArgsOf t 296 1) t

/-- `environGetArguments_HT_Delta0_multitemp` (hapi.py lines 6038-6060). -/
def environGetArguments_HT_Delta0_multitemp (ctx : Ctx) (broadener : String) (t : Trans) :
    Except PyErr (Info × Args) :=
  let T_ref := get_T_ref_for_HT_multitemp t.T
  environGetArguments ctx.abscoefDebug
    [⟨"HT 1", [⟨"Par_ref", "delta_HT_0_" ++ broadener ++ "_" ++ fmtTref T_ref, none⟩,
               ⟨"Coef", "deltap_HT_" ++ broadener ++ "_" ++ fmtTref T_ref, none⟩]⟩]
    (auxArgsOf t T_ref 1) t

/-- `environGetArguments_HT_Gamma2_default` (hapi.py lines 6064-6085). -/
def environGetArguments_HT_Gamma2_default (ctx : Ctx) (broadener : String) (t : Trans) :
    Except PyErr (Info × Args) :=
  environGetArguments ctx.abscoefDebug
    [⟨"HT 1", [⟨"Par_ref", "gamma_HT_2_" ++ broadener ++ "_" ++ fmtTref 296, none⟩,
               ⟨"TempRatioPower", "n_gamma_HT_2_" ++ broadener ++ "_" ++ fmtTref 296, some 0⟩]⟩]
    (auxArgsOf t 296 1) t

/-- `environGetArguments_HT_Gamma2_multitemp` (hapi.py lines 6087-6110). -/
def environGetArguments_HT_Gamma2_multitemp (ctx : Ctx) (broadener : String) (t : Trans) :
    Except PyErr (Info × Args) :=
  let T_ref := get_T_ref_for_HT_multitemp t.T
  environGetArguments ctx.abscoefDebug
    [⟨"HT 1", [⟨"Par_ref", "gamma_HT_2_" ++ broadener ++ "_" ++ fmtTref T_ref, none⟩,
               ⟨"TempRatioPower", "n_gamma_HT_2_" ++ broadener ++ "_" ++ fmtTref T_ref,
                some 0⟩]⟩]
    (auxArgsOf t T_ref 1) t

/-- `environGetArguments_HT_Delta2_default` (hapi.py lines 6114-6136). -/
def environGetArguments_HT_Delta2_default (ctx : Ctx) (broadener : String) (t : Trans) :
    Except PyErr (Info × Args) :=
  environGetArguments ctx.abscoefDebug
    [⟨"HT 1", [⟨"Par_ref", "delta_HT_2_" ++ broadener ++ "_" ++ fmtTref 296, some 0⟩,
               ⟨"Coef", "deltap_HT_2_" ++ broadener ++ "_" ++ fmtTref 296, some 0⟩]⟩]
    (auxArgsOf t 296 1) t

/-- `environGetArguments_HT_Delta2_multitemp` (hapi.py lines 6138-6162). -/
def environGetArguments_HT_Delta2_multitemp (ctx : Ctx) (broadener : String) (t : Trans) :
    Except PyErr (Info × Args) :=
  let T_ref := get_T_ref_for_HT_multitemp t.T
  environGetArguments ctx.abscoefDebug
    [⟨"HT 1", [⟨"Par_ref", "delta_HT_2_" ++ broadener ++ "_" ++ fmtTref T_ref, some 0⟩,
               ⟨"Coef", "deltap_HT_2_" ++ broadener ++ "_" ++ fmtTref T_ref, some 0⟩]⟩]
    (auxArgsOf t T_ref 1) t

/-- `environGetArguments_HT_NuVC_default` (hapi.py lines 6166-6187):
`nu_HT_<b>` / `kappa_HT_<b>` (the power defaults to 0). -/
def environGetArguments_HT_NuVC_default (ctx : Ctx) (broadener : String) (t : Trans) :
    Except PyErr (Info × Args) :=
  environGetArguments ctx.abscoefDebug
    [⟨"HT 1", [⟨"Par_ref", "nu_HT_" ++ broadener, none⟩,
               ⟨"TempRatioPower", "kappa_HT_" ++ broadener, some 0⟩]⟩]
    (auxArgsOf t 296 1) t

/-- `environGetArguments_HT_YRosen_default` (hapi.py lines 6191-6213). -/
def environGetArguments_HT_YRosen_default (ctx : Ctx) (broadener : String) (t : Trans) :
    Except PyErr (Info × Args) :=
  environGetArguments ctx.abscoefDebug
    [⟨"Lorentz 1", [⟨"Par_ref", "Y_HT_" ++ broadener ++ "_" ++ fmtTref 296, some 0⟩,
                    ⟨"TempRatioPower", "n_Y_HT_" ++ broadener ++ "_" ++ fmtTref 296,
                     some 0⟩]⟩]
    (auxArgsOf t 296 1) t

/-- One registry entry: the argument selector and the dependence law. -/
structure EnvdepPreset where
  getargs : Ctx → String → Trans → Except PyErr (Info × Args)
  depfunc : Ctx → Args → Except PyErr ℚ

/-- The registry `PRESSURE_INDUCED_ENVDEP` (hapi.py lines 6217-6353):
`profile → parameter → preset → {getargs, depfunc}`; `none` models the
`KeyError` a lookup of an absent entry raises. -/
def PRESSURE_INDUCED_ENVDEP (profile parname preset : String) : Option EnvdepPreset :=
  match profile, parname, preset with
  | "Lorentz", "Gamma0", "default" =>
    some ⟨environGetArguments_Lorentz_Gamma0_default, depPowerLaw⟩
  | "Lorentz", "Delta0", "default" =>
    some ⟨environGetArguments_Lorentz_Delta0_default, fun _ => depLinearLaw⟩
  | "Lorentz", "YRosen", "default" =>
    some ⟨environGetArguments_Lorentz_YRosen_default, fun _ => depLinearLaw⟩
  | "Voigt", "Gamma0", "default" =>
    some ⟨environGetArguments_Lorentz_Gamma0_default, depPowerLaw⟩
  | "Voigt", "Delta0", "default" =>
    some ⟨environGetArguments_Lorentz_Delta0_default, fun _ => depLinearLaw⟩
  | "Voigt", "YRosen", "default" =>
    some ⟨environGetArguments_Lorentz_YRosen_default, depPowerLaw⟩
  | "SDVoigt", "Gamma0", "default" =>
    some ⟨environGetArguments_SDVoigt_Gamma0_default, depPowerLaw⟩
  | "SDVoigt", "Delta0", "default" =>
    some ⟨environGetArguments_SDVoigt_Delta0_default, fun _ => depLinearLaw⟩
  | "SDVoigt", "Gamma2", "default" =>
    some ⟨environGetArguments_SDVoigt_Gamma2_default, depPowerLaw⟩
  | "SDVoigt", "Gamma2", "dimensionless" =>
    some ⟨environGetArguments_SDVoigt_Gamma2_dimensionless, depSDGamma2Dimensionless⟩
  | "SDVoigt", "Delta2", "default" =>
    some ⟨environGetArguments_SDVoigt_Delta2_default, fun _ => depLinearLaw⟩
  | "SDVoigt", "YRosen", "default" =>
    some ⟨environGetArguments_SDVoigt_YRosen_default, depPowerLaw⟩
  | "HT", "Gamma0", "default" =>
    some ⟨environGetArguments_HT_Gamma0_default, depPowerLaw⟩
  | "HT", "Gamma0", "multitemp" =>
    some ⟨environGetArguments_HT_Gamma0_multitemp, depPowerLaw⟩
  | "HT", "Delta0", "default" =>
    some ⟨environGetArguments_HT_Delta0_default, fun _ => depLinearLaw⟩
  | "HT", "Delta0", "multitemp" =>
    some ⟨environGetArguments_HT_Delta0_multitemp, fun _ => depLinearLaw⟩
  | "HT", "Gamma2", "default" =>
    some ⟨environGetArguments_HT_Gamma2_default, depPowerLaw⟩
  | "HT", "Gamma2", "multitemp" =>
    some ⟨environGetArguments_HT_Gamma2_multitemp, depPowerLaw⟩
  | "HT", "Delta2", "default" =>
    some ⟨environGetArguments_HT_Delta2_default, fun _ => depLinearLaw⟩
  | "HT", "Delta2", "multitemp" =>
    some ⟨environGetArguments_HT_Delta2_multitemp, fun _ => depLinearLaw⟩
  | "HT", "NuVC", "default" =>
    some ⟨environGetArguments_HT_NuVC_default, depPowerLaw⟩
  | "HT", "YRosen", "default" =>
    some ⟨environGetArguments_HT_YRosen_default, depPowerLaw⟩
  | _, _, _ => none

/-- The exception message `e.__class__.__name__+': '+str(e)` recorded in
the ladder's failure status. -/
def pyErrMsg : PyErr → String
  | .keyError k => "KeyError: " ++ k
  | .nameError k => "NameError: name " ++ k ++ " is not defined"
  | .typeError m => "TypeError: " ++ m
  | .notFoundInDB cols => "Exception: not found in DB: " ++ String.intercalate ", " cols

/-- One candidate of the ladder (the body of the `try`, hapi.py lines
5275-5278): registry lookup, `getargs`, then `depfunc(**ARGS)`.  On failure
the error carries the candidate's `INFO` when its `getargs` succeeded
(`INFO, ARGS = …getargs(…)` has already rebound `INFO` in that case). -/
def ladderTryCandidate (ctx : Ctx) (profile envdep parname species : String) (t : Trans) :
    Except (Option Info × PyErr) (Info × ℚ) :=
  match PRESSURE_INDUCED_ENVDEP profile parname envdep with
  | none => .error (none, .keyError (profile ++ "/" ++ parname ++ "/" ++ envdep))
  | some pr =>
    match pr.getargs ctx species t with
    | .error e => .error (none, e)
    | .ok (info, args) =>
      match pr.depfunc ctx args with
      | .error e => .error (some info, e)
      | .ok v => .ok (info, v)

/-- The candidate loop of `ladder` (hapi.py lines 5272-5287): first success
returns immediately; with `flag_exception` unset each failure is caught,
its message recorded under `'status'`, and the next candidate is tried;
when all candidates fail the function returns `(INFO, 0)` — it does NOT
re-raise. -/
def ladderGo (ctx : Ctx) (parname species : String) (t : Trans) (flagExc : Bool) :
    List (String × String) → Info → Except PyErr (Info × ℚ)
  | [], info => .ok (info, 0)
  | (profile, envdep) :: rest, info =>
    match ladderTryCandidate ctx profile envdep parname species t with
    | .ok r => .ok r
    | .error (oinfo, e) =>
      if flagExc then .error e
      else
        ladderGo ctx parname species t flagExc rest
          (assocSet (oinfo.getD info) "status" (.status (pyErrMsg e)))

/-- `ladder(parname, species, envdep_presets, TRANS, flag_exception=False)`
(hapi.py lines 5267-5287). -/
def ladder (ctx : Ctx) (parname species : String) (presets : List (String × String))
    (t : Trans) (flagExc : Bool) : Except PyErr (Info × ℚ) :=
  ladderGo ctx parname species t flagExc presets []

/-- `CALC_INFO[par]` entries that `calculate_parameter_Eta`/`_NuVC` read:
the `'value'` key (absent for entries that never stored one) and the
per-species `'mixture'` values. -/
structure CIEntry where
  value : Option ℚ
  mixture : List (String × ℚ)
deriving DecidableEq

abbrev CalcInfo := List (String × CIEntry)

/-- `CALC_INFO[p]['value']` (raising `KeyError` when absent). -/
def ciValue (ci : CalcInfo) (p : String) : Except PyErr ℚ :=
  match (ci.find? fun kv => kv.1 == p).map Prod.snd with
  | none => .error (.keyError p)
  | some e =>
    match e.value with
    | none => .error (.keyError "value")
    | some v => .ok v

/-- `CALC_INFO[p]['mixture'][species]['value']`. -/
def ciMixtureValue (ci : CalcInfo) (p species : String) : Except PyErr ℚ :=
  match (ci.find? fun kv => kv.1 == p).map Prod.snd with
  | none => .error (.keyError p)
  | some e =>
    match (e.mixture.find? fun kv => kv.1 == species).map Prod.snd with
    | none => .error (.keyError species)
    | some v => .ok v

/-- `calculate_parameter_Nu` (hapi.py lines 5312-5316). -/
def calculate_parameter_Nu (t : Trans) (ci? : Option CalcInfo) : Except PyErr ℚ :=
  .ok t.nu

/-- `EnvironmentDependency_Intensity` (hapi.py lines 6360-6366); the
constant is the exact decimal literal `1.4388028496642257`. -/
def EnvironmentDependency_Intensity (ctx : Ctx)
    (LineIntensityRef T Tref SigmaT SigmaTref LowerStateEnergy LineCenter : ℚ) : ℚ :=
  let c : ℚ := 14388028496642257 / 10 ^ 16
  let ch := ctx.fexp (-c * LowerStateEnergy / T) * (1 - ctx.fexp (-c * LineCenter / T))
  let zn := ctx.fexp (-c * LowerStateEnergy / Tref) * (1 - ctx.fexp (-c * LineCenter / Tref))
  LineIntensityRef * SigmaTref / SigmaT * ch / zn

/-- `calculate_parameter_Sw` (hapi.py lines 5318-5347). -/
def calculate_parameter_Sw (ctx : Ctx) (t : Trans) (ci? : Option CalcInfo) :
    Except PyErr ℚ :=
  let Sw_calc :=
    EnvironmentDependency_Intensity ctx t.sw t.T t.T_ref t.SigmaT t.SigmaT_ref t.elower t.nu
  match t.abundances with
  | none => .ok Sw_calc
  | some ab =>
    match (ab.find? fun kv => kv.1 == (t.molec_id, t.local_iso_id)).map Prod.snd with
    | none => .error (.keyError "Abundances")
    | some ai => .ok (Sw_calc * ai / ctx.abundance t.molec_id t.local_iso_id)

/-- `calculate_parameter_GammaD` (hapi.py lines 5349-5383):
`sqrt(2*cBolts*T*log(2)/m/cc**2) * nu` with `m = molmass*cMassMol*1000`,
`cMassMol = 1.66053873e-27`. -/
def calculate_parameter_GammaD (ctx : Ctx) (t : Trans) (ci? : Option CalcInfo) :
    Except PyErr ℚ :=
  let cMassMol : ℚ := 166053873 / 10 ^ 35
  let molmass := ctx.molecularMass t.molec_id t.local_iso_id
  let m := molmass * cMassMol * 1000
  .ok (ctx.fsqrt (2 * ctx.cBolts * t.T * ctx.ln2 / m / ctx.cc ^ 2) * t.nu)

/-- `calculate_parameter_PI` (hapi.py lines 5289-5310): sum over the
diluent species of `abundance * ladder(parname, species, presets, TRANS)`;
the ladder is called with `flag_exception` left at its default `False`, so
a species whose resolution fails contributes the fallback value 0. -/
def calculate_parameter_PI (ctx : Ctx) (parname : String)
    (presets : List (String × String)) (t : Trans) (ci? : Option CalcInfo) :
    Except PyErr ℚ :=
  .ok (t.diluent.foldl
    (fun acc sp =>
      acc + sp.2 *
        (match ladder ctx parname sp.1 presets t false with
         | .ok r => r.2
         | .error _ => 0))
    0)

def calculate_parameter_Gamma0 (ctx : Ctx) (presets : List (String × String)) (t : Trans)
    (ci? : Option CalcInfo) : Except PyErr ℚ :=
  calculate_parameter_PI ctx "Gamma0" presets t ci?

def calculate_parameter_Delta0 (ctx : Ctx) (presets : List (String × String)) (t : Trans)
    (ci? : Option CalcInfo) : Except PyErr ℚ :=
  calculate_parameter_PI ctx "Delta0" presets t ci?

def calculate_parameter_Gamma2 (ctx : Ctx) (presets : List (String × String)) (t : Trans)
    (ci? : Option CalcInfo) : Except PyErr ℚ :=
  calculate_parameter_PI ctx "Gamma2" presets t ci?

def calculate_parameter_Delta2 (ctx : Ctx) (presets : List (String × String)) (t : Trans)
    (ci? : Option CalcInfo) : Except PyErr ℚ :=
  calculate_parameter_PI ctx "Delta2" presets t ci?

def calculate_parameter_YRosen (ctx : Ctx) (presets : List (String × String)) (t : Trans)
    (ci? : Option CalcInfo) : Except PyErr ℚ :=
  calculate_parameter_PI ctx "YRosen" presets t ci?

/-- The species loop of `calculate_parameter_Eta` (hapi.py lines
5425-5439).  For each species it reads `eta_HT_<s>` (defaulting to 0) and
the per-species `Gamma2`/`Delta2` from `CALC_INFO`, computes `Eta_species`,
and then — while building the `CALC_INFO` record — evaluates the names
`Gamma0` and `Delta0`, which are not defined in that scope: `NameError`. -/
def etaSpeciesLoop (ci : CalcInfo) (t : Trans) (Gamma2 Delta2 : ℚ) :
    List (String × ℚ) → CQ → Except PyErr CQ
  | [], acc => .ok acc
  | (species, abun) :: _, _ =>
    match ciMixtureValue ci "Gamma2" species, ciMixtureValue ci "Delta2" species with
    | .ok Gamma2T, .ok Delta2T =>
      let EtaDB := transGetD t ("eta_HT_" ++ species) 0
      let denom : CQ := ⟨Gamma2, -Delta2⟩
      let es0 : CQ := CQ.ofQ (EtaDB * abun) * ⟨Gamma2T, -Delta2T⟩
      let _Eta_species : CQ := if denom ≠ 0 then es0 / denom else es0
      .error (.nameError "Gamma0")
    | .error e, _ => .error e
    | _, .error e => .error e

/-- `calculate_parameter_Eta` (hapi.py lines 5413-5440): a non-dict
`CALC_INFO` short-circuits to 0 before touching any database field; with a
dict it reads `Gamma2`/`Delta2` and enters the species loop (which fails
with `NameError` for any non-empty diluent; an empty diluent returns the
zero accumulator). -/
def calculate_parameter_Eta (ctx : Ctx) (t : Trans) (ci? : Option CalcInfo) :
    Except PyErr ℚ :=
  match ci? with
  | none => .ok 0
  | some ci =>
    match ciValue ci "Gamma2", ciValue ci "Delta2" with
    | .ok Gamma2, .ok Delta2 =>
      (etaSpeciesLoop ci t Gamma2 Delta2 t.diluent 0).map CQ.re
    | .error e, _ => .error e
    | _, .error e => .error e

/-- `calculate_parameter_NuVC` (hapi.py lines 5442-5482): a non-dict
`CALC_INFO` short-circuits to 0; with a dict it reads `Gamma0`, `Delta0`
and `Eta` from `CALC_INFO` and then evaluates
`NuVC = Eta*(Gamma0-1j*Shift0)` — but the name `Shift0` is not defined in
that scope, so the function raises `NameError` before its species loop. -/
def calculate_parameter_NuVC (ctx : Ctx) (t : Trans) (ci? : Option CalcInfo) :
    Except PyErr ℚ :=
  match ci? with
  | none => .ok 0
  | some ci =>
    match ciValue ci "Gamma0", ciValue ci "Delta0", ciValue ci "Eta" with
    | .ok _Gamma0, .ok _Delta0, .ok _Eta => .error (.nameError "Shift0")
    | .error e, _, _ => .error e
    | _, .error e, _ => .error e
    | _, _, .error e => .error e

/-- `calculateProfileParameters` (hapi.py lines 5491-5507): run the
parameter functions in order, forcing excluded parameters to 0. -/
def calculateProfileParameters (ctx : Ctx)
    (parameters : List (String × (Ctx → Trans → Option CalcInfo → Except PyErr ℚ)))
    (t : Trans) (ci? : Option CalcInfo) (exclude : List String) :
    Except PyErr (List (String × ℚ)) :=
  match parameters with
  | [] => .ok []
  | (pname, pfunc) :: rest =>
    if exclude.contains pname then
      (calculateProfileParameters ctx rest t ci? exclude).map fun ps => (pname, 0) :: ps
    else
      match pfunc ctx t ci? with
      | .error e => .error e
      | .ok v =>
        (calculateProfileParameters ctx rest t ci? exclude).map fun ps => (pname, v) :: ps

/-- The HT candidate list (hapi.py lines 5575-5579). -/
def envdep_presets_HT : List (String × String) :=
  [("HT", "multitemp"), ("HT", "default"), ("Voigt", "default")]

/-- `calculateProfileParametersHT` (hapi.py lines 5571-5592). -/
def calculateProfileParametersHT (ctx : Ctx) (t : Trans) (ci? : Option CalcInfo)
    (exclude : List String) : Except PyErr (List (String × ℚ)) :=
  calculateProfileParameters ctx
    [("Nu", fun _ t ci => calculate_parameter_Nu t ci),
     ("Sw", calculate_parameter_Sw),
     ("GammaD", calculate_parameter_GammaD),
     ("Gamma0", fun c t ci => calculate_parameter_Gamma0 c envdep_presets_HT t ci),
     ("Delta0", fun c t ci => calculate_parameter_Delta0 c envdep_presets_HT t ci),
     ("Gamma2", fun c t ci => calculate_parameter_Gamma2 c envdep_presets_HT t ci),
     ("Delta2", fun c t ci => calculate_parameter_Delta2 c envdep_presets_HT t ci),
     ("Eta", calculate_parameter_Eta),
     ("NuVC", calculate_parameter_NuVC),
     ("YRosen", fun c t ci => calculate_parameter_YRosen c envdep_presets_HT t ci)]
    t ci? exclude

/-- Lines 6534-6537 of `absorptionCoefficient_Generic`:
`VARIABLES['abscoef_debug'] = (DEBUG is not None)`. -/
def abscoefDebugOf (DEBUG : Option (List CalcInfo)) : Bool :=
  DEBUG.isSome

/-- Lines 6662-6665 of `absorptionCoefficient_Generic`: per line,
`CALC_INFO = {} if VARIABLES['abscoef_debug'] else None`. -/
def calcInfoForLine (abscoefDebug : Bool) : Option CalcInfo :=
  if abscoefDebug then some [] else none

/-- Association-list lookup used to read a value out of the returned
`PARAMETERS` dict. -/
def paramsGet (ps : List (String × ℚ)) (k : String) : Option ℚ :=
  (ps.find? fun kv => kv.1 == k).map Prod.snd

/-- Did this ladder call raise (propagate an exception)? -/
def ladderRaised (r : Except PyErr (Info × ℚ)) : Bool :=
  match r with
  | .error _ => true
  | .ok _ => false

/-- The parameter value a ladder call resolved (when it did not raise). -/
def ladderResultValue (r : Except PyErr (Info × ℚ)) : Option ℚ :=
  match r with
  | .ok p => some p.2
  | .error _ => none

/-- Did this ladder candidate fail (throw inside the `try`)? -/
def candidateFailed (r : Except (Option Info × PyErr) (Info × ℚ)) : Bool :=
  match r with
  | .error _ => true
  | .ok _ => false

/-- A concrete context for witnesses: every opaque float operation and
constant is the constant 1, debug off. -/
def ctxUnit : Ctx :=
  ⟨fun _ _ => 1, fun _ => 1, fun _ => 1, false, fun _ _ => 1, fun _ _ => 1, 1, 1, 1⟩

/-- A concrete line context with an air diluent and no broadening columns
at all. -/
def transBase : Trans :=
  ⟨2, 1, 2350, 1, 0, 296, 1, 296, 1, 1, 1, [("air", 1)], none, []⟩

/-- A concrete line context at `T = 150 K` whose record carries both the
multitemp HT column `gamma_HT_0_air_150` (value 2) and the default HT
column `gamma_HT_0_air_296` (value 3). -/
def transC4 : Trans :=
  ⟨2, 1, 2350, 1, 0, 150, 1, 296, 1, 1, 1, [("air", 1)], none,
   [("gamma_HT_0_air_150", 2), ("gamma_HT_0_air_296", 3)]⟩

/-- A concrete debug `CALC_INFO` state as the HT pipeline would have
populated it before `Eta`/`NuVC` run. -/
def ciC6 : CalcInfo :=
  [("Gamma0", ⟨some 1, [("air", 1)]⟩), ("Delta0", ⟨some 0, [("air", 0)]⟩),
   ("Eta", ⟨some 0, []⟩), ("Gamma2", ⟨some 1, [("air", 1)]⟩),
   ("Delta2", ⟨some 0, [("air", 0)]⟩)]

@[simp] theorem CQ.zero_def : (0 : CQ) = ⟨0, 0⟩ := rfl

@[simp] theorem CQ.one_def : (1 : CQ) = ⟨1, 0⟩ := rfl

@[simp] theorem CQ.ofQ_def (q : ℚ) : CQ.ofQ q = ⟨q, 0⟩ := rfl

@[simp] theorem CQ.I_def : CQ.I = ⟨0, 1⟩ := rfl

@[simp] theorem CQ.add_def (z w : CQ) : z + w = ⟨z.re + w.re, z.im + w.im⟩ := rfl

@[simp] theorem CQ.sub_def (z w : CQ) : z - w = ⟨z.re - w.re, z.im - w.im⟩ := rfl

@[simp] theorem CQ.neg_def (z : CQ) : -z = ⟨-z.re, -z.im⟩ := rfl

@[simp] theorem CQ.mul_def (z w : CQ) :
    z * w = ⟨z.re * w.re - z.im * w.im, z.re * w.im + z.im * w.re⟩ := rfl

@[simp] theorem CQ.div_def (z w : CQ) :
    z / w = ⟨(z.re * w.re + z.im * w.im) / (w.re * w.re + w.im * w.im),
             (z.im * w.re - z.re * w.im) / (w.re * w.re + w.im * w.im)⟩ := rfl

@[simp] theorem CQ.normSq_def (z : CQ) : CQ.normSq z = z.re * z.re + z.im * z.im := rfl

theorem zip_maskFilter {α β : Type} :
    ∀ (x : List α) (y : List β) (mask : List Bool), x.length = y.length →
      (maskFilter x mask).zip (maskFilter y mask) = maskFilter (x.zip y) mask := by
  intro x
  induction x with
  | nil =>
    intro y mask h
    cases y with
    | nil => cases mask <;> rfl
    | cons b ys => simp at h
  | cons a xs ih =>
    intro y mask h
    cases y with
    | nil => simp at h
    | cons b ys =>
      cases mask with
      | nil => rfl
      | cons m ms =>
        have hlen : xs.length = ys.length := by simpa using h
        unfold maskFilter
        by_cases hm : m = true
        · subst hm
          simp only [if_pos trivial, List.zip_cons_cons, if_true]
          rw [ih ys ms hlen]
        · have hm2 : m = false := by
            cases m
            · rfl
            · exact absurd rfl hm
          subst hm2
          simp only [Bool.false_eq_true, if_false]
          rw [List.zip_cons_cons]
          simp only [Bool.false_eq_true, if_false]
          exact ih ys ms hlen

theorem place_maskFilter_map {α β : Type} (f g : α → β) (m : α → Bool) :
    ∀ l : List α,
      place (l.map f) (l.map m) ((maskFilter l (l.map m)).map g) =
        l.map fun p => if m p then g p else f p := by
  intro l
  induction l with
  | nil => rfl
  | cons p l ih =>
    simp only [List.map_cons]
    unfold maskFilter place
    by_cases hm : m p = true
    · rw [hm]
      simp only [if_true, List.map_cons]
      rw [ih]
    · have hm2 : m p = false := by
        cases hmp : m p
        · rfl
        · exact absurd hmp hm
      rw [hm2]
      simp only [Bool.false_eq_true, if_false]
      rw [ih]

/-- `hum1_wei` in closed form: the compact-then-scatter computation equals a
pointwise conditional between the Weideman evaluation and the closed-form
approximation. -/
theorem hum1_wei_eq_pointwise (L : ℚ) (a : List ℚ) (rpiInv : ℚ) (x y : List ℚ)
    (hlen : x.length = y.length) :
    hum1_wei L a rpiInv x y =
      (((x.zip y).map fun p =>
          if |p.1| + p.2 < 15 then cefPoint L a rpiInv p.1 p.2
          else hum1Point rpiInv p.1 p.2).map CQ.re,
       ((x.zip y).map fun p =>
          if |p.1| + p.2 < 15 then cefPoint L a rpiInv p.1 p.2
          else hum1Point rpiInv p.1 p.2).map CQ.im) := by
  unfold hum1_wei cef
  dsimp only
  rw [zip_maskFilter x y _ hlen]
  by_cases hany : (((x.zip y).map fun p => decide (|p.1| + p.2 < 15)).any id) = true
  · rw [if_pos hany]
    rw [place_maskFilter_map (fun p => hum1Point rpiInv p.1 p.2)
      (fun p => cefPoint L a rpiInv p.1 p.2) (fun p => decide (|p.1| + p.2 < 15)) (x.zip y)]
    simp only [decide_eq_true_eq]
  · rw [if_neg hany]
    have hall : ∀ p ∈ x.zip y, ¬ (|p.1| + p.2 < 15) := by
      intro p hp
      by_contra hlt
      apply hany
      rw [List.any_eq_true]
      refine ⟨decide (|p.1| + p.2 < 15), List.mem_map_of_mem _ hp, ?_⟩
      simpa using hlt
    have hmap : ((x.zip y).map fun p =>
        if |p.1| + p.2 < 15 then cefPoint L a rpiInv p.1 p.2
        else hum1Point rpiInv p.1 p.2) =
        (x.zip y).map fun p => hum1Point rpiInv p.1 p.2 := by
      apply List.map_congr_left
      intro p hp
      rw [if_neg (hall p hp)]
    rw [hmap]

/-- **C10** (confirmed).  For equal-length inputs, `hum1_wei` computes the
closed-form approximation `(1/sqrt pi)·t/(0.5+t²)` (`t = y - i·x`) at every
index, and exactly at the indices with `|x|+y < 15` overrides it by the
Weideman rational-polynomial evaluation `cef`; all other indices keep the
closed-form value, and the returned pair holds real and imaginary parts in
the original index order. -/
theorem hum1_wei_mask_override (L : ℚ) (a : List ℚ) (rpiInv : ℚ) (x y : List ℚ)
    (hlen : x.length = y.length) (i : ℕ) (hi : i < x.length) :
    (hum1_wei L a rpiInv x y).1.getD i 0 =
      (if |x.getD i 0| + y.getD i 0 < 15 then cefPoint L a rpiInv (x.getD i 0) (y.getD i 0)
       else hum1Point rpiInv (x.getD i 0) (y.getD i 0)).re ∧
    (hum1_wei L a rpiInv x y).2.getD i 0 =
      (if |x.getD i 0| + y.getD i 0 < 15 then cefPoint L a rpiInv (x.getD i 0) (y.getD i 0)
       else hum1Point rpiInv (x.getD i 0) (y.getD i 0)).im := by
  rw [hum1_wei_eq_pointwise L a rpiInv x y hlen]
  have hiy : i < y.length := hlen ▸ hi
  have hz : i < (x.zip y).length := by
    rw [List.length_zip]
    omega
  have hzip : (x.zip y)[i] = (x[i], y[i]) := List.getElem_zip
  have hm1 : i < (((x.zip y).map fun p =>
      if |p.1| + p.2 < 15 then cefPoint L a rpiInv p.1 p.2
      else hum1Point rpiInv p.1 p.2).map CQ.re).length := by
    simpa using hz
  have hm2 : i < (((x.zip y).map fun p =>
      if |p.1| + p.2 < 15 then cefPoint L a rpiInv p.1 p.2
      else hum1Point rpiInv p.1 p.2).map CQ.im).length := by
    simpa using hz
  constructor
  · rw [List.getD_eq_getElem _ _ hm1, List.getElem_map, List.getElem_map, hzip,
      List.getD_eq_getElem x 0 hi, List.getD_eq_getElem y 0 hiy]
  · rw [List.getD_eq_getElem _ _ hm2, List.getElem_map, List.getElem_map, hzip,
      List.getD_eq_getElem x 0 hi, List.getD_eq_getElem y 0 hiy]

/-- **C10** witness: a two-point grid where the first point is masked
(`|x|+y < 15`) and the second is not. -/
theorem hum1_wei_mask_override_witness :
    ([(0 : ℚ), 20].length = [(0 : ℚ), 0].length) ∧ (0 < [(0 : ℚ), 20].length) ∧
      ((hum1_wei 1 [] 1 [0, 20] [0, 0]).1.getD 0 0 =
        (if |([(0 : ℚ), 20]).getD 0 0| + ([(0 : ℚ), 0]).getD 0 0 < 15 then
          cefPoint 1 [] 1 (([(0 : ℚ), 20]).getD 0 0) (([(0 : ℚ), 0]).getD 0 0)
         else hum1Point 1 (([(0 : ℚ), 20]).getD 0 0) (([(0 : ℚ), 0]).getD 0 0)).re ∧
       (hum1_wei 1 [] 1 [0, 20] [0, 0]).2.getD 0 0 =
        (if |([(0 : ℚ), 20]).getD 0 0| + ([(0 : ℚ), 0]).getD 0 0 < 15 then
          cefPoint 1 [] 1 (([(0 : ℚ), 20]).getD 0 0) (([(0 : ℚ), 0]).getD 0 0)
         else hum1Point 1 (([(0 : ℚ), 20]).getD 0 0) (([(0 : ℚ), 0]).getD 0 0)).im) :=
  ⟨rfl, by norm_num, hum1_wei_mask_override 1 [] 1 [0, 20] [0, 0] rfl 0 (by norm_num)⟩

/-- **C2** (code bug).  Failing input for the degenerate branch of
`pcqsdhc`: two grid points with `|Z1| = 1` and `|Z1| ≈ 5000`.  The first
point satisfies `|Z1| ≤ 4000`, yet its `Bterm` receives the asymptotic
expansion value (the second whole-array assignment overwrote the direct
formula for every point), which differs from the direct-formula value the
claim requires. -/
theorem pcqsdhc_degenerate_bterm_overwrite :
    CQ.normSq ⟨1, 0⟩ ≤ 4000 * 4000 ∧
      (pcqsdhcPart1 (fun _ _ => ⟨1, 0⟩) 2 1 0 ⟨1, 0⟩ [0, 5000]).2.getD 0 0 =
        bTermAsymp 2 1 ⟨1, 0⟩ ⟨1, 0⟩ ∧
      bTermAsymp 2 1 ⟨1, 0⟩ ⟨1, 0⟩ = ⟨7 / 4, 0⟩ ∧
      bTermDirect 2 1 ⟨1, 0⟩ ⟨1, 0⟩ = ⟨1, 0⟩ ∧
      bTermAsymp 2 1 ⟨1, 0⟩ ⟨1, 0⟩ ≠ bTermDirect 2 1 ⟨1, 0⟩ ⟨1, 0⟩ := by
  refine ⟨by norm_num, ?_, ?_, ?_, ?_⟩
  · unfold pcqsdhcPart1
    norm_num
  · unfold bTermAsymp
    simp only [CQ.ofQ_def, CQ.mul_def, CQ.div_def, CQ.add_def, CQ.sub_def]
    norm_num
  · unfold bTermDirect
    simp only [CQ.ofQ_def, CQ.one_def, CQ.mul_def, CQ.div_def, CQ.add_def, CQ.sub_def]
    norm_num
  · unfold bTermAsymp bTermDirect
    simp only [CQ.ofQ_def, CQ.one_def, CQ.mul_def, CQ.div_def, CQ.add_def, CQ.sub_def]
    intro h
    have := congrArg CQ.re h
    norm_num at this

theorem gridList_succ (a s : ℚ) (k : ℕ) :
    gridList a s (k + 1) = gridList a s k ++ [a + (k : ℚ) * s] := by
  unfold gridList
  rw [List.range_succ, List.map_append]
  rfl

theorem linspace_eq_gridList (a s : ℚ) (n : ℤ) (hn : 1 ≤ n) :
    linspace a (a + s * ((n : ℚ) - 1)) n = gridList a s n.toNat := by
  unfold linspace gridList
  rcases eq_or_lt_of_le hn with h1 | h2
  · rw [← h1]
    norm_num [List.range_succ]
  · have hn0 : ¬ (n ≤ 0) := by omega
    have hn1 : ¬ (n = 1) := by omega
    simp only [hn0, if_false, hn1]
    apply List.map_congr_left
    intro i _
    have hne : ((n : ℚ) - 1) ≠ 0 := by
      have h : (1 : ℚ) < (n : ℚ) := by exact_mod_cast h2
      intro hz
      nlinarith
    field_simp

theorem gridList_sorted (a s : ℚ) (hs : 0 < s) (m : ℕ) :
    (gridList a s m).Pairwise (· < ·) := by
  unfold gridList
  refine List.Pairwise.map _ ?_ (List.pairwise_lt_range m)
  intro i j hij
  have h : (i : ℚ) < (j : ℚ) := by exact_mod_cast hij
  nlinarith

theorem gridList_getLast (a s : ℚ) (m : ℕ) (hm : m ≠ 0) :
    (gridList a s m).getLast? = some (a + ((m : ℚ) - 1) * s) := by
  rcases Nat.exists_eq_succ_of_ne_zero hm with ⟨k, rfl⟩
  rw [gridList_succ, List.getLast?_concat]
  push_cast
  ring_nf

theorem gridList_length (a s : ℚ) (m : ℕ) : (gridList a s m).length = m := by
  unfold gridList
  rw [List.length_map, List.length_range]

theorem gridList_getD (a s : ℚ) (m i : ℕ) (hi : i < m) :
    (gridList a s m).getD i 0 = a + (i : ℚ) * s := by
  unfold gridList
  rw [List.getD_eq_getElem?_getD, List.getElem?_map, List.getElem?_range hi]
  rfl

/-- Closed form of `arange_`: it always produces the uniform grid
`lower, lower+step, ...` whose point count is `⌊(upper-lower)/step⌋+1`,
plus one more point exactly when the endpoint-correction test fires. -/
theorem arange_eq_gridList (lower upper step : ℚ) (hle : lower ≤ upper) (hstep : 0 < step) :
    arange_ lower upper step =
      gridList lower step
        (if |upper - (lower + step * (((⌊(upper - lower) / step⌋ + 1 : ℤ) : ℚ) - 1)) - step|
            < 1 / 10 ^ 10
         then (⌊(upper - lower) / step⌋ + 2).toNat
         else (⌊(upper - lower) / step⌋ + 1).toNat) := by
  have hfl : (0 : ℤ) ≤ ⌊(upper - lower) / step⌋ := by
    apply Int.floor_nonneg.mpr
    exact div_nonneg (by linarith) hstep.le
  unfold arange_
  by_cases hext :
      |upper - (lower + step * (((⌊(upper - lower) / step⌋ + 1 : ℤ) : ℚ) - 1)) - step|
        < 1 / 10 ^ 10
  · rw [if_pos hext, if_pos hext]
    have h2 : (1 : ℤ) ≤ ⌊(upper - lower) / step⌋ + 1 + 1 := by omega
    have heq : lower + step * (((⌊(upper - lower) / step⌋ + 1 : ℤ) : ℚ) - 1) + step =
        lower + step * ((((⌊(upper - lower) / step⌋ + 1 + 1 : ℤ) : ℚ)) - 1) := by
      push_cast
      ring
    rw [heq, linspace_eq_gridList lower step _ h2]
    congr 1
    omega
  · rw [if_neg hext, if_neg hext]
    have h1 : (1 : ℤ) ≤ ⌊(upper - lower) / step⌋ + 1 := by omega
    rw [linspace_eq_gridList lower step _ h1]

/-- The remainder `upper - upper_new` lies in `[0, step)` where
`upper_new = lower + step*(⌊(upper-lower)/step⌋)`. -/
theorem arange_remainder_bounds (lower upper step : ℚ) (hle : lower ≤ upper) (hstep : 0 < step) :
    0 ≤ upper - (lower + step * (((⌊(upper - lower) / step⌋ + 1 : ℤ) : ℚ) - 1)) ∧
      upper - (lower + step * (((⌊(upper - lower) / step⌋ + 1 : ℤ) : ℚ) - 1)) < step := by
  have h1 : ((⌊(upper - lower) / step⌋ : ℤ) : ℚ) * step ≤ upper - lower :=
    (le_div_iff₀ hstep).mp (Int.floor_le _)
  have h2 : upper - lower < (((⌊(upper - lower) / step⌋ : ℤ) : ℚ) + 1) * step :=
    (div_lt_iff₀ hstep).mp (Int.lt_floor_add_one _)
  constructor
  · push_cast
    nlinarith
  · push_cast
    nlinarith

/-- **C7** (amended).  For all `lower ≤ upper` and `step > 0`, `arange_`
computes `npnt = ⌊(upper-lower)/step⌋+1` and `upper' = lower+step*(npnt-1)`,
extends the grid by exactly one more point if and only if
`|(upper-upper')-step| < 1e-10`, and returns a strictly ascending uniform
array with spacing `step`; its last value equals `upper` within tolerance
`1e-10` whenever the extension fired, and otherwise equals `upper'`, the
largest grid point not exceeding `upper` (within one `step` of `upper`, but
not in general within `1e-10` — the original claim's universal endpoint
guarantee fails, see the counterexample). -/
theorem arange_robust_grid (lower upper step : ℚ) (hle : lower ≤ upper) (hstep : 0 < step) :
    (arange_ lower upper step).Pairwise (· < ·) ∧
    (arange_ lower upper step).length =
      (if |upper - (lower + step * (((⌊(upper - lower) / step⌋ + 1 : ℤ) : ℚ) - 1)) - step|
          < 1 / 10 ^ 10
       then (⌊(upper - lower) / step⌋ + 1).toNat + 1
       else (⌊(upper - lower) / step⌋ + 1).toNat) ∧
    (∀ i : ℕ, i < (arange_ lower upper step).length →
        (arange_ lower upper step).getD i 0 = lower + (i : ℚ) * step) ∧
    (|upper - (lower + step * (((⌊(upper - lower) / step⌋ + 1 : ℤ) : ℚ) - 1)) - step|
          < 1 / 10 ^ 10 →
      ∀ lastv : ℚ, (arange_ lower upper step).getLast? = some lastv →
        |upper - lastv| < 1 / 10 ^ 10) ∧
    (¬ |upper - (lower + step * (((⌊(upper - lower) / step⌋ + 1 : ℤ) : ℚ) - 1)) - step|
          < 1 / 10 ^ 10 →
      (arange_ lower upper step).getLast? =
          some (lower + step * (((⌊(upper - lower) / step⌋ + 1 : ℤ) : ℚ) - 1)) ∧
        0 ≤ upper - (lower + step * (((⌊(upper - lower) / step⌋ + 1 : ℤ) : ℚ) - 1)) ∧
        upper - (lower + step * (((⌊(upper - lower) / step⌋ + 1 : ℤ) : ℚ) - 1)) < step) := by
  have hfl : (0 : ℤ) ≤ ⌊(upper - lower) / step⌋ := by
    apply Int.floor_nonneg.mpr
    exact div_nonneg (by linarith) hstep.le
  have hgl := arange_eq_gridList lower upper step hle hstep
  have hrem := arange_remainder_bounds lower upper step hle hstep
  by_cases hext :
      |upper - (lower + step * (((⌊(upper - lower) / step⌋ + 1 : ℤ) : ℚ) - 1)) - step|
        < 1 / 10 ^ 10
  · rw [if_pos hext] at hgl
    have hm : (⌊(upper - lower) / step⌋ + 2).toNat = (⌊(upper - lower) / step⌋ + 1).toNat + 1 := by
      omega
    refine ⟨?_, ?_, ?_, ?_, fun h => absurd hext h⟩
    · rw [hgl]
      exact gridList_sorted _ _ hstep _
    · rw [hgl, gridList_length, if_pos hext, hm]
    · intro i hi
      rw [hgl] at hi ⊢
      rw [gridList_length] at hi
      exact gridList_getD _ _ _ _ hi
    · intro _ lastv hlast
      rw [hgl, gridList_getLast _ _ _ (by omega)] at hlast
      have h2 : (((⌊(upper - lower) / step⌋ + 2).toNat : ℤ)) = ⌊(upper - lower) / step⌋ + 2 :=
        Int.toNat_of_nonneg (by omega)
      have hcast : (((⌊(upper - lower) / step⌋ + 2).toNat : ℚ)) =
          ((⌊(upper - lower) / step⌋ : ℤ) : ℚ) + 2 := by
        rw [← Int.cast_natCast, h2]
        push_cast
        ring
      rw [hcast] at hlast
      have : lastv = lower + (((⌊(upper - lower) / step⌋ : ℤ) : ℚ) + 1) * step := by
        injection hlast with h
        rw [← h]
        ring
      rw [this]
      have heq : upper - (lower + (((⌊(upper - lower) / step⌋ : ℤ) : ℚ) + 1) * step) =
          upper - (lower + step * (((⌊(upper - lower) / step⌋ + 1 : ℤ) : ℚ) - 1)) - step := by
        push_cast
        ring
      rw [heq]
      exact hext
  · rw [if_neg hext] at hgl
    refine ⟨?_, ?_, ?_, fun h => absurd h hext, ?_⟩
    · rw [hgl]
      exact gridList_sorted _ _ hstep _
    · rw [hgl, gridList_length, if_neg hext]
    · intro i hi
      rw [hgl] at hi ⊢
      rw [gridList_length] at hi
      exact gridList_getD _ _ _ _ hi
    · intro _
      refine ⟨?_, hrem.1, hrem.2⟩
      rw [hgl, gridList_getLast _ _ _ (by omega)]
      have h2 : (((⌊(upper - lower) / step⌋ + 1).toNat : ℤ)) = ⌊(upper - lower) / step⌋ + 1 :=
        Int.toNat_of_nonneg (by omega)
      have hcast : (((⌊(upper - lower) / step⌋ + 1).toNat : ℚ)) =
          ((⌊(upper - lower) / step⌋ : ℤ) : ℚ) + 1 := by
        rw [← Int.cast_natCast, h2]
        push_cast
        ring
      rw [hcast]
      congr 1
      push_cast
      ring

/-- **C7** witness: `arange_ 0 1 (1/2)` satisfies the hypotheses and the
amended conclusions at a concrete input. -/
theorem arange_robust_grid_witness :
    (0 : ℚ) ≤ 1 ∧ (0 : ℚ) < 1 / 2 ∧
      ((arange_ 0 1 (1 / 2)).Pairwise (· < ·) ∧
        (arange_ 0 1 (1 / 2)).length =
          (if |1 - ((0 : ℚ) + 1 / 2 * (((⌊((1 : ℚ) - 0) / (1 / 2)⌋ + 1 : ℤ) : ℚ) - 1)) - 1 / 2|
              < 1 / 10 ^ 10
           then (⌊((1 : ℚ) - 0) / (1 / 2)⌋ + 1).toNat + 1
           else (⌊((1 : ℚ) - 0) / (1 / 2)⌋ + 1).toNat) ∧
        (∀ i : ℕ, i < (arange_ 0 1 (1 / 2)).length →
            (arange_ 0 1 (1 / 2)).getD i 0 = 0 + (i : ℚ) * (1 / 2)) ∧
        (|1 - ((0 : ℚ) + 1 / 2 * (((⌊((1 : ℚ) - 0) / (1 / 2)⌋ + 1 : ℤ) : ℚ) - 1)) - 1 / 2|
              < 1 / 10 ^ 10 →
          ∀ lastv : ℚ, (arange_ 0 1 (1 / 2)).getLast? = some lastv →
            |1 - lastv| < 1 / 10 ^ 10) ∧
        (¬ |1 - ((0 : ℚ) + 1 / 2 * (((⌊((1 : ℚ) - 0) / (1 / 2)⌋ + 1 : ℤ) : ℚ) - 1)) - 1 / 2|
              < 1 / 10 ^ 10 →
          (arange_ 0 1 (1 / 2)).getLast? =
              some (0 + 1 / 2 * (((⌊((1 : ℚ) - 0) / (1 / 2)⌋ + 1 : ℤ) : ℚ) - 1)) ∧
            0 ≤ 1 - ((0 : ℚ) + 1 / 2 * (((⌊((1 : ℚ) - 0) / (1 / 2)⌋ + 1 : ℤ) : ℚ) - 1)) ∧
            1 - ((0 : ℚ) + 1 / 2 * (((⌊((1 : ℚ) - 0) / (1 / 2)⌋ + 1 : ℤ) : ℚ) - 1)) < 1 / 2)) :=
  ⟨by norm_num, by norm_num, arange_robust_grid 0 1 (1 / 2) (by norm_num) (by norm_num)⟩

/-- **C7** counterexample: for `lower = 0`, `upper = 1`, `step = 3/5` the
returned grid is `[0, 3/5]`, whose last value differs from `upper` by `2/5`,
far beyond the claimed `1e-10` tolerance. -/
theorem arange_endpoint_gap :
    arange_ 0 1 (3 / 5) = [0, 3 / 5] ∧
      (arange_ 0 1 (3 / 5)).getLast? = some (3 / 5) ∧
      ¬ |(1 : ℚ) - 3 / 5| < 1 / 10 ^ 10 := by
  have hfl : ⌊((1 : ℚ) - 0) / (3 / 5)⌋ = 1 := by norm_num [Int.floor_eq_iff]
  have hgrid : arange_ 0 1 (3 / 5) = [0, 3 / 5] := by
    unfold arange_ linspace
    rw [hfl]
    norm_num [abs_of_neg]
    show List.map _ (List.range 2) = _
    rw [List.range_succ, List.range_succ, List.range_zero]
    norm_num
  refine ⟨hgrid, ?_, ?_⟩
  · rw [hgrid]
    rfl
  · rw [abs_of_pos (by norm_num)]
    norm_num

/-- **C3** (amended).  The half-width wing equals
`max(absolute_wing', relative_wing_in_halfwidths * max(Gamma0, GammaD))`,
where `absolute_wing'` is the caller's absolute wing except that it is
overwritten by the fixed 10 cm-1 default exactly when
`max(Gamma0, GammaD) = 0` **and the relative wing parameter is 0** — the
fallback (and its warning) is controlled by `OmegaWingHW = 0`, not by
whether an absolute wing was given, and it fires (overwriting any absolute
wing the caller gave) or stays silent irrespective of `OmegaWing`. -/
theorem wing_formula (paramsGammaD paramsGamma0 : Option ℚ) (OmegaWing OmegaWingHW : ℚ) :
    (wingOfLine paramsGammaD paramsGamma0 OmegaWing OmegaWingHW).1 =
      max (if max (paramsGamma0.getD 0) (paramsGammaD.getD 0) = 0 ∧ OmegaWingHW = 0
           then (10 : ℚ) else OmegaWing)
        (OmegaWingHW * max (paramsGamma0.getD 0) (paramsGammaD.getD 0)) ∧
    ((wingOfLine paramsGammaD paramsGamma0 OmegaWing OmegaWingHW).2 = true ↔
      max (paramsGamma0.getD 0) (paramsGammaD.getD 0) = 0 ∧ OmegaWingHW = 0) ∧
    (∀ OmegaWing2 : ℚ,
      (wingOfLine paramsGammaD paramsGamma0 OmegaWing2 OmegaWingHW).2 =
        (wingOfLine paramsGammaD paramsGamma0 OmegaWing OmegaWingHW).2) := by
  by_cases h : max (paramsGamma0.getD 0) (paramsGammaD.getD 0) = 0 ∧ OmegaWingHW = 0
  · simp [wingOfLine, h]
  · simp [wingOfLine, h]

/-- **C3** counterexample.  With `Gamma0 = GammaD = 0`, no caller-supplied
absolute wing (`OmegaWing = 0`, its default) and the *default* relative
wing `OmegaWingHW = 50`, the claim demands the 10 cm-1 fallback and a
warning; the code produces wing `0` and no warning.  Conversely, with an
absolute wing of 5 explicitly given but `OmegaWingHW = 0`, the code fires
the fallback and overwrites the caller's wing with 10. -/
theorem wing_no_fallback_counterexample :
    (wingOfLine (some 0) (some 0) DefaultOmegaWing DefaultOmegaWingHW).1 = 0 ∧
    (wingOfLine (some 0) (some 0) DefaultOmegaWing DefaultOmegaWingHW).2 = false ∧
    (0 : ℚ) ≠ 10 ∧
    (wingOfLine none none 5 0).1 = 10 ∧
    (wingOfLine none none 5 0).2 = true := by
  refine ⟨?_, ?_, by norm_num, ?_, ?_⟩ <;>
    norm_num [wingOfLine, DefaultOmegaWing, DefaultOmegaWingHW]

theorem sorted_getD_le_iff_lt_bisect (xs : List ℚ) (hs : xs.Sorted (· ≤ ·)) (x : ℚ) :
    ∀ i : ℕ, i < xs.length → (xs.getD i 0 ≤ x ↔ i < bisect xs x) := by
  induction xs with
  | nil =>
    intro i hi
    simp at hi
  | cons a l ih =>
    rw [List.sorted_cons] at hs
    have hcount : bisect (a :: l) x = bisect l x + if a ≤ x then 1 else 0 := by
      unfold bisect
      rw [List.countP_cons]
      by_cases ha : a ≤ x <;> simp [ha]
    have hzero : ¬ a ≤ x → bisect l x = 0 := by
      intro ha
      unfold bisect
      rw [List.countP_eq_zero]
      intro b hb
      simp only [decide_eq_true_eq]
      intro hbx
      exact ha (le_trans (hs.1 b hb) hbx)
    intro i hi
    cases i with
    | zero =>
      simp only [List.getD_cons_zero, hcount]
      by_cases ha : a ≤ x
      · simp [ha]
      · simp only [ha, if_false, false_iff, hzero ha]
        omega
    | succ i =>
      have hil : i < l.length := by simpa using hi
      simp only [List.getD_cons_succ, hcount]
      by_cases ha : a ≤ x
      · rw [ih hs.2 i hil]
        simp only [ha, if_pos trivial]
        omega
      · have hlz := hzero ha
        simp only [ha, if_false]
        constructor
        · intro hle
          exfalso
          have hmem : l.getD i 0 ∈ l := by
            rw [List.getD_eq_getElem l 0 hil]
            exact List.getElem_mem hil
          exact ha (le_trans (hs.1 _ hmem) hle)
        · intro hlt
          omega

theorem addSlice_getD_outside (Xsect : List ℚ) (lo hi : ℕ) (factor : ℚ) (vals : List ℚ)
    (hlohi : lo ≤ hi) (hhi : hi ≤ Xsect.length) (hv : vals.length = hi - lo) (i : ℕ)
    (h : i < lo ∨ hi ≤ i) :
    (addSlice Xsect lo hi factor vals).getD i 0 = Xsect.getD i 0 := by
  have hlA : (Xsect.take lo).length = lo := by
    rw [List.length_take]
    omega
  have hlM : (List.zipWith (fun a b => a + factor * b)
      ((Xsect.drop lo).take (hi - lo)) vals).length = hi - lo := by
    rw [List.length_zipWith, List.length_take, List.length_drop]
    omega
  have hmax : max lo hi = hi := max_eq_right hlohi
  unfold addSlice
  rw [hmax]
  rw [List.getD_eq_getElem?_getD, List.getD_eq_getElem?_getD]
  rcases h with hlt | hge
  · rw [List.getElem?_append_left (by rw [List.length_append, hlA, hlM]; omega)]
    rw [List.getElem?_append_left (by rw [hlA]; omega)]
    rw [List.getElem?_take_of_lt hlt]
  · rw [List.getElem?_append_right (by rw [List.length_append, hlA, hlM]; omega)]
    rw [List.length_append, hlA, hlM, List.getElem?_drop]
    have hidx : hi + (i - (lo + (hi - lo))) = i := by omega
    rw [hidx]

/-- **C9** (confirmed).  One line's accumulation step changes the output
array only inside the grid sub-range `[lo, hi)` selected by the binary
searches for `nu-wing` and `nu+wing`: every entry outside that sub-range is
unchanged, and any entry that does change lies at a grid point inside
`[nu-wing, nu+wing]`. -/
theorem lineAccumulate_window (Omegas Xsect : List ℚ) (factor nu wing : ℚ) (vals : List ℚ)
    (hsort : Omegas.Sorted (· ≤ ·)) (hlen : Xsect.length = Omegas.length) (hwing : 0 ≤ wing)
    (hv : vals.length = bisect Omegas (nu + wing) - bisect Omegas (nu - wing)) :
    (∀ i : ℕ, i < bisect Omegas (nu - wing) ∨ bisect Omegas (nu + wing) ≤ i →
        (lineAccumulate Omegas Xsect factor nu wing vals).getD i 0 = Xsect.getD i 0) ∧
    (∀ i : ℕ, (lineAccumulate Omegas Xsect factor nu wing vals).getD i 0 ≠ Xsect.getD i 0 →
        i < Omegas.length ∧ nu - wing ≤ Omegas.getD i 0 ∧ Omegas.getD i 0 ≤ nu + wing) := by
  have hlohi : bisect Omegas (nu - wing) ≤ bisect Omegas (nu + wing) := by
    unfold bisect
    apply List.countP_mono_left
    intro v _ hvle
    simp only [decide_eq_true_eq] at hvle ⊢
    linarith
  have hhi : bisect Omegas (nu + wing) ≤ Xsect.length := by
    rw [hlen]
    exact List.countP_le_length _
  have hframe : ∀ i : ℕ, i < bisect Omegas (nu - wing) ∨ bisect Omegas (nu + wing) ≤ i →
      (lineAccumulate Omegas Xsect factor nu wing vals).getD i 0 = Xsect.getD i 0 := by
    intro i h
    exact addSlice_getD_outside Xsect _ _ factor vals hlohi hhi hv i h
  refine ⟨hframe, ?_⟩
  intro i hne
  by_cases hmem : i < bisect Omegas (nu - wing) ∨ bisect Omegas (nu + wing) ≤ i
  · exact absurd (hframe i hmem) hne
  · push_neg at hmem
    have hlo2 : bisect Omegas (nu - wing) ≤ i := hmem.1
    have hhi2 : i < bisect Omegas (nu + wing) := hmem.2
    have hiO : i < Omegas.length := by
      have := List.countP_le_length (fun v => decide (v ≤ nu + wing)) (l := Omegas)
      unfold bisect at hhi2
      omega
    refine ⟨hiO, ?_, ?_⟩
    · have := (sorted_getD_le_iff_lt_bisect Omegas hsort (nu - wing) i hiO)
      by_contra hcon
      push_neg at hcon
      have hle : Omegas.getD i 0 ≤ nu - wing := le_of_lt hcon
      have := this.mp hle
      omega
    · exact (sorted_getD_le_iff_lt_bisect Omegas hsort (nu + wing) i hiO).mpr hhi2

/-- **C9** witness: a four-point grid, a line windowed to its middle two
points. -/
theorem lineAccumulate_window_witness :
    ([(0 : ℚ), 1, 2, 3].Sorted (· ≤ ·)) ∧
    ([(0 : ℚ), 0, 0, 0].length = [(0 : ℚ), 1, 2, 3].length) ∧
    ((0 : ℚ) ≤ 1) ∧
    ([(5 : ℚ), 7].length = bisect [0, 1, 2, 3] (2 + 1) - bisect [0, 1, 2, 3] (2 - 1)) ∧
    ((∀ i : ℕ, i < bisect [(0 : ℚ), 1, 2, 3] (2 - 1) ∨ bisect [(0 : ℚ), 1, 2, 3] (2 + 1) ≤ i →
        (lineAccumulate [0, 1, 2, 3] [0, 0, 0, 0] 1 2 1 [5, 7]).getD i 0 =
          ([(0 : ℚ), 0, 0, 0]).getD i 0) ∧
     (∀ i : ℕ,
        (lineAccumulate [0, 1, 2, 3] [0, 0, 0, 0] 1 2 1 [5, 7]).getD i 0 ≠
          ([(0 : ℚ), 0, 0, 0]).getD i 0 →
        i < ([(0 : ℚ), 1, 2, 3]).length ∧
          2 - 1 ≤ ([(0 : ℚ), 1, 2, 3]).getD i 0 ∧ ([(0 : ℚ), 1, 2, 3]).getD i 0 ≤ 2 + 1)) := by
  have h1 : ([(0 : ℚ), 1, 2, 3].Sorted (· ≤ ·)) := by
    simp only [List.sorted_cons, List.mem_cons, List.mem_singleton, List.sorted_nil]
    norm_num
  have h4 : ([(5 : ℚ), 7].length = bisect [0, 1, 2, 3] (2 + 1) - bisect [0, 1, 2, 3] (2 - 1)) := by
    simp only [bisect, List.countP_cons, List.countP_nil]
    norm_num
  exact ⟨h1, rfl, by norm_num,
    h4, lineAccumulate_window [0, 1, 2, 3] [0, 0, 0, 0] 1 2 1 [5, 7] h1 rfl (by norm_num) h4⟩

/-- **C8** (amended).  The profile adapters are invoked by keyword from the
parameter dict (`profile(**PARAMETERS)`), but Python's keyword-binding for
a `def` without `**kwargs` rejects any key that is not a declared
parameter: a call with one extra key fails with a `TypeError` rather than
silently ignoring the key; a call whose keys are exactly the declared
parameters (optionally omitting defaulted ones) succeeds. -/
theorem callKw_extra_key_rejected (decl : List ParamDecl) (kwargs : List (String × PyVal))
    (kv : String × PyVal) (hmem : kv ∈ kwargs) (hnot : ∀ p ∈ decl, p.pname ≠ kv.1) :
    (∃ msg, callKw decl kwargs = .error (.typeError msg)) ∧
    (∀ (fexp : ℚ → ℚ) (c1 c2 nu gd sw : ℚ) (grid : List ℚ),
      PROFILE_DOPPLER_kw fexp c1 c2
          [("Nu", .num nu), ("GammaD", .num gd), ("WnGrid", .arr grid), ("Sw", .num sw)] =
        .ok (PROFILE_DOPPLER fexp c1 c2 nu gd grid sw)) := by
  constructor
  · have hpred : (fun kv2 : String × PyVal => !(decl.any fun p => p.pname == kv2.1)) kv = true := by
      simp only [Bool.not_eq_eq_eq_not, Bool.not_true, List.any_eq_false]
      intro p hp
      simpa using hnot p hp
    have hfind : (kwargs.find? fun kv2 => !(decl.any fun p => p.pname == kv2.1)).isSome := by
      rw [List.find?_isSome]
      exact ⟨kv, hmem, hpred⟩
    unfold callKw
    cases hcase : kwargs.find? fun kv2 => !(decl.any fun p => p.pname == kv2.1) with
    | none =>
      rw [hcase] at hfind
      simp at hfind
    | some w => exact ⟨_, rfl⟩
  · intro fexp c1 c2 nu gd sw grid
    rfl

/-- **C8** counterexample.  `PROFILE_DOPPLER` called with an additional
`Gamma0` key fails with `TypeError: unexpected keyword argument`, instead
of succeeding with the same result as the call without the extra key (the
identical call without `Gamma0` succeeds). -/
theorem doppler_extra_key_counterexample :
    PROFILE_DOPPLER_kw (fun _ => 1) 1 1
        [("Nu", .num 2350), ("GammaD", .num 1), ("WnGrid", .arr [2350]), ("Sw", .num 1),
         ("Gamma0", .num 1)] =
      .error (.typeError "unexpected keyword argument Gamma0") ∧
    PROFILE_DOPPLER_kw (fun _ => 1) 1 1
        [("Nu", .num 2350), ("GammaD", .num 1), ("WnGrid", .arr [2350]), ("Sw", .num 1)] =
      .ok (PROFILE_DOPPLER (fun _ => 1) 1 1 2350 1 [2350] 1) :=
  ⟨rfl, rfl⟩

theorem registry_HT_Gamma0_multitemp : PRESSURE_INDUCED_ENVDEP "HT" "Gamma0" "multitemp" =
    some ⟨environGetArguments_HT_Gamma0_multitemp, depPowerLaw⟩ := rfl

theorem registry_HT_Gamma0_default : PRESSURE_INDUCED_ENVDEP "HT" "Gamma0" "default" =
    some ⟨environGetArguments_HT_Gamma0_default, depPowerLaw⟩ := rfl

theorem registry_Voigt_Gamma0_default : PRESSURE_INDUCED_ENVDEP "Voigt" "Gamma0" "default" =
    some ⟨environGetArguments_Lorentz_Gamma0_default, depPowerLaw⟩ := rfl

theorem registry_HT_Delta0_multitemp : PRESSURE_INDUCED_ENVDEP "HT" "Delta0" "multitemp" =
    some ⟨environGetArguments_HT_Delta0_multitemp, fun _ => depLinearLaw⟩ := rfl

theorem registry_HT_Delta0_default : PRESSURE_INDUCED_ENVDEP "HT" "Delta0" "default" =
    some ⟨environGetArguments_HT_Delta0_default, fun _ => depLinearLaw⟩ := rfl

theorem registry_Voigt_Delta0_default : PRESSURE_INDUCED_ENVDEP "Voigt" "Delta0" "default" =
    some ⟨environGetArguments_Lorentz_Delta0_default, fun _ => depLinearLaw⟩ := rfl

theorem registry_HT_Gamma2_multitemp : PRESSURE_INDUCED_ENVDEP "HT" "Gamma2" "multitemp" =
    some ⟨environGetArguments_HT_Gamma2_multitemp, depPowerLaw⟩ := rfl

theorem registry_HT_Gamma2_default : PRESSURE_INDUCED_ENVDEP "HT" "Gamma2" "default" =
    some ⟨environGetArguments_HT_Gamma2_default, depPowerLaw⟩ := rfl

theorem registry_Voigt_Gamma2_none : PRESSURE_INDUCED_ENVDEP "Voigt" "Gamma2" "default" =
    none := rfl

theorem registry_HT_Delta2_multitemp : PRESSURE_INDUCED_ENVDEP "HT" "Delta2" "multitemp" =
    some ⟨environGetArguments_HT_Delta2_multitemp, fun _ => depLinearLaw⟩ := rfl

theorem registry_HT_Delta2_default : PRESSURE_INDUCED_ENVDEP "HT" "Delta2" "default" =
    some ⟨environGetArguments_HT_Delta2_default, fun _ => depLinearLaw⟩ := rfl

theorem registry_Voigt_Delta2_none : PRESSURE_INDUCED_ENVDEP "Voigt" "Delta2" "default" =
    none := rfl

theorem registry_HT_YRosen_multitemp_none :
    PRESSURE_INDUCED_ENVDEP "HT" "YRosen" "multitemp" = none := rfl

theorem registry_HT_YRosen_default : PRESSURE_INDUCED_ENVDEP "HT" "YRosen" "default" =
    some ⟨environGetArguments_HT_YRosen_default, depPowerLaw⟩ := rfl

theorem registry_Voigt_YRosen_default : PRESSURE_INDUCED_ENVDEP "Voigt" "YRosen" "default" =
    some ⟨environGetArguments_Lorentz_YRosen_default, depPowerLaw⟩ := rfl

theorem transGet_transBase (k : String) : transGet transBase k = none := rfl

/-- The generalized first-match lemma for the candidate loop: whatever
status information has accumulated, once every earlier candidate fails and
one succeeds, the loop returns that candidate's result. -/
theorem ladderGo_first_match (ctx : Ctx) (parname species : String) (t : Trans)
    (pe : String × String) (presets2 : List (String × String)) (info : Info) (v : ℚ)
    (hok : ladderTryCandidate ctx pe.1 pe.2 parname species t = .ok (info, v)) :
    ∀ (presets1 : List (String × String)), (∀ q ∈ presets1,
        ∃ o e, ladderTryCandidate ctx q.1 q.2 parname species t = .error (o, e)) →
      ∀ info0 : Info,
        ladderGo ctx parname species t false (presets1 ++ pe :: presets2) info0 =
          .ok (info, v) := by
  intro presets1
  induction presets1 with
  | nil =>
    intro _ info0
    show ladderGo ctx parname species t false (pe :: presets2) info0 = .ok (info, v)
    cases pe with
    | mk profile envdep =>
      unfold ladderGo
      rw [hok]
  | cons q qs ih =>
    intro hfail info0
    obtain ⟨o, e, he⟩ := hfail q (List.mem_cons_self q qs)
    cases q with
    | mk profile envdep =>
      show ladderGo ctx parname species t false
        ((profile, envdep) :: (qs ++ pe :: presets2)) info0 = .ok (info, v)
      unfold ladderGo
      rw [he]
      exact ih (fun q2 hq2 => hfail q2 (List.mem_cons_of_mem _ hq2)) _

/-- **C4** (confirmed).  The ladder tries its `(profile_family, preset)`
candidates in declared order and returns the result of the first candidate
that succeeds (its `getargs` columns all resolve and its `depfunc`
evaluates); later candidates cannot influence the result.  Instantiated at
the HT candidate list `[('HT','multitemp'), ('HT','default'),
('Voigt','default')]` (see the witness), a record satisfying both the
multitemp and the default `Gamma0` presets resolves to the multitemp value,
never the default's. -/
theorem ladder_first_match_wins (ctx : Ctx) (parname species : String)
    (presets1 presets2 : List (String × String)) (pe : String × String) (t : Trans)
    (info : Info) (v : ℚ)
    (hfail : ∀ q ∈ presets1,
      ∃ o e, ladderTryCandidate ctx q.1 q.2 parname species t = .error (o, e))
    (hok : ladderTryCandidate ctx pe.1 pe.2 parname species t = .ok (info, v)) :
    ladder ctx parname species (presets1 ++ pe :: presets2) t false = .ok (info, v) :=
  ladderGo_first_match ctx parname species t pe presets2 info v hok presets1 hfail []

/-- **C4** witness: at `T = 150 K`, `transC4` satisfies both the multitemp
preset (column `gamma_HT_0_air_150`, value 2) and the default preset
(column `gamma_HT_0_air_296`, value 3); the ladder resolves the multitemp
value 2, not the default's 3. -/
theorem ladder_first_match_wins_witness :
    (∀ q ∈ ([] : List (String × String)),
        ∃ o e, ladderTryCandidate ctxUnit q.1 q.2 "Gamma0" "air" transC4 = .error (o, e)) ∧
    ladderTryCandidate ctxUnit "HT" "multitemp" "Gamma0" "air" transC4 = .ok ([], 2) ∧
    ladderTryCandidate ctxUnit "HT" "default" "Gamma0" "air" transC4 = .ok ([], 3) ∧
    (2 : ℚ) ≠ 3 ∧
    ladder ctxUnit "Gamma0" "air" envdep_presets_HT transC4 false = .ok ([], 2) := by
  have hm : ladderTryCandidate ctxUnit "HT" "multitemp" "Gamma0" "air" transC4 =
      .ok ([], 2) := by
    have h : ladderTryCandidate ctxUnit "HT" "multitemp" "Gamma0" "air" transC4 =
        .ok ([], 2 * 1 * (1 / 1)) := rfl
    rw [h]
    norm_num
  have hd : ladderTryCandidate ctxUnit "HT" "default" "Gamma0" "air" transC4 =
      .ok ([], 3) := by
    have h : ladderTryCandidate ctxUnit "HT" "default" "Gamma0" "air" transC4 =
        .ok ([], 3 * 1 * (1 / 1)) := rfl
    rw [h]
    norm_num
  have hnil : ∀ q ∈ ([] : List (String × String)),
      ∃ o e, ladderTryCandidate ctxUnit q.1 q.2 "Gamma0" "air" transC4 = .error (o, e) := by
    intro q hq
    simp at hq
  exact ⟨hnil, hm, hd, by norm_num,
    ladder_first_match_wins ctxUnit "Gamma0" "air" []
      [("HT", "default"), ("Voigt", "default")] ("HT", "multitemp") transC4 [] 2 hnil hm⟩

/-- When the exception flag is off, the candidate loop never re-raises:
after all candidates fail it returns the fallback `(INFO, 0)`. -/
theorem ladderGo_all_fail (ctx : Ctx) (parname species : String) (t : Trans) :
    ∀ (presets : List (String × String)) (info0 : Info),
      (∀ q ∈ presets,
        ∃ o e, ladderTryCandidate ctx q.1 q.2 parname species t = .error (o, e)) →
      ∃ info, ladderGo ctx parname species t false presets info0 = .ok (info, 0) := by
  intro presets
  induction presets with
  | nil =>
    intro info0 _
    exact ⟨info0, rfl⟩
  | cons q qs ih =>
    intro info0 hfail
    obtain ⟨o, e, he⟩ := hfail q (List.mem_cons_self q qs)
    cases q with
    | mk profile envdep =>
      show ∃ info, ladderGo ctx parname species t false ((profile, envdep) :: qs) info0 =
        .ok (info, 0)
      unfold ladderGo
      rw [he]
      exact ih _ (fun q2 hq2 => hfail q2 (List.mem_cons_of_mem _ hq2))

/-- **C1** (amended).  When no preset candidate resolves,
`environGetArguments` does raise a typed failure naming every missing
column across the lookup cases it tried (last conjunct, shown for the
Lorentz/Voigt `Gamma0` selector); but the ladder is called by
`calculate_parameter_PI` with `flag_exception` left `False`, so it catches
every candidate's exception, records a status, and returns the fallback
value 0 — the synthesis call is NOT aborted, and the per-species
contribution of the unresolvable parameter is 0.  The failure propagates
only when `flag_exception=True` is passed (second conjunct). -/
theorem ladder_default_suppresses_failure (ctx : Ctx) (parname species : String)
    (presets : List (String × String)) (t : Trans)
    (hfail : ∀ q ∈ presets,
      ∃ o e, ladderTryCandidate ctx q.1 q.2 parname species t = .error (o, e)) :
    (∃ info, ladder ctx parname species presets t false = .ok (info, 0)) ∧
    (∀ q rest, presets = q :: rest →
      ∀ o e, ladderTryCandidate ctx q.1 q.2 parname species t = .error (o, e) →
        ladder ctx parname species presets t true = .error e) ∧
    (∀ ci, t.diluent = [(species, 1)] →
      calculate_parameter_PI ctx parname presets t ci = .ok 0) ∧
    (∀ (broadener : String) (t2 : Trans), transGet t2 ("gamma_" ++ broadener) = none →
      transGet t2 ("n_" ++ broadener) = none → transGet t2 "n_air" = none →
      environGetArguments_Lorentz_Gamma0_default ctx broadener t2 =
        .error (.notFoundInDB
          ["gamma_" ++ broadener, "n_" ++ broadener, "gamma_" ++ broadener, "n_air"])) := by
  have hok := ladderGo_all_fail ctx parname species t presets [] hfail
  refine ⟨hok, ?_, ?_, ?_⟩
  · intro q rest hps o e he
    subst hps
    cases q with
    | mk profile envdep =>
      show ladderGo ctx parname species t true ((profile, envdep) :: rest) [] = .error e
      unfold ladderGo
      rw [he]
      rfl
  · intro ci hdil
    obtain ⟨info, hinfo⟩ := hok
    unfold calculate_parameter_PI ladder
    rw [hdil]
    simp only [List.foldl]
    rw [hinfo]
    norm_num
  · intro broadener t2 h1 h2 h3
    simp [environGetArguments_Lorentz_Gamma0_default, environGetArguments,
      environGetArgumentsGo, envCaseStep, auxArgsOf, h1, h2, h3]

/-- **C1** witness: the HT `Gamma0` candidate list on a line record with no
broadening columns at all — every candidate fails, yet the ladder returns
`(INFO, 0)` without raising, `calculate_parameter_PI` yields 0, and
`flag_exception=True` would have propagated the failure. -/
theorem ladder_default_suppresses_failure_witness :
    (∀ q ∈ envdep_presets_HT,
      ∃ o e, ladderTryCandidate ctxUnit q.1 q.2 "Gamma0" "air" transBase = .error (o, e)) ∧
    ((∃ info, ladder ctxUnit "Gamma0" "air" envdep_presets_HT transBase false =
        .ok (info, 0)) ∧
     (∀ q rest, envdep_presets_HT = q :: rest →
       ∀ o e, ladderTryCandidate ctxUnit q.1 q.2 "Gamma0" "air" transBase = .error (o, e) →
         ladder ctxUnit "Gamma0" "air" envdep_presets_HT transBase true = .error e) ∧
     (∀ ci, transBase.diluent = [("air", 1)] →
       calculate_parameter_PI ctxUnit "Gamma0" envdep_presets_HT transBase ci = .ok 0) ∧
     (∀ (broadener : String) (t2 : Trans), transGet t2 ("gamma_" ++ broadener) = none →
       transGet t2 ("n_" ++ broadener) = none → transGet t2 "n_air" = none →
       environGetArguments_Lorentz_Gamma0_default ctxUnit broadener t2 =
         .error (.notFoundInDB
           ["gamma_" ++ broadener, "n_" ++ broadener, "gamma_" ++ broadener, "n_air"]))) := by
  have hfail : ∀ q ∈ envdep_presets_HT,
      ∃ o e, ladderTryCandidate ctxUnit q.1 q.2 "Gamma0" "air" transBase = .error (o, e) := by
    intro q hq
    fin_cases hq
    · exact ⟨none, _, rfl⟩
    · exact ⟨none, _, rfl⟩
    · exact ⟨none, _, rfl⟩
  exact ⟨hfail,
    ladder_default_suppresses_failure ctxUnit "Gamma0" "air" envdep_presets_HT transBase hfail⟩

/-- **C1** counterexample: with the HT `Gamma0` candidates and an empty
line record, every candidate fails, yet the ladder call does NOT raise —
it returns the resolved value 0, contradicting the claimed fatal-by-default
propagation of the typed failure. -/
theorem ladder_no_raise_counterexample :
    candidateFailed (ladderTryCandidate ctxUnit "HT" "multitemp" "Gamma0" "air" transBase) =
        true ∧
    candidateFailed (ladderTryCandidate ctxUnit "HT" "default" "Gamma0" "air" transBase) =
        true ∧
    candidateFailed (ladderTryCandidate ctxUnit "Voigt" "default" "Gamma0" "air" transBase) =
        true ∧
    ladderRaised (ladder ctxUnit "Gamma0" "air" envdep_presets_HT transBase false) = false ∧
    ladderResultValue (ladder ctxUnit "Gamma0" "air" envdep_presets_HT transBase false) =
        some 0 :=
  ⟨rfl, rfl, rfl, rfl, rfl⟩

/-- Structure of a successful `calculateProfileParameters` run: the result
pairs line up with the parameter list; each value is 0 (excluded) or the
value its parameter function returned. -/
theorem calculateProfileParameters_ok_forall (ctx : Ctx)
    (parameters : List (String × (Ctx → Trans → Option CalcInfo → Except PyErr ℚ)))
    (t : Trans) (ci? : Option CalcInfo) (exclude : List String) :
    ∀ PARAMS : List (String × ℚ),
      calculateProfileParameters ctx parameters t ci? exclude = .ok PARAMS →
      List.Forall₂ (fun kv pf => kv.1 = pf.1 ∧ (kv.2 = 0 ∨ pf.2 ctx t ci? = .ok kv.2))
        PARAMS parameters := by
  induction parameters with
  | nil =>
    intro PARAMS h
    simp only [calculateProfileParameters] at h
    injection h with h
    rw [← h]
    exact List.Forall₂.nil
  | cons pf ps ih =>
    intro PARAMS h
    cases pf with
    | mk pname pfunc =>
      simp only [calculateProfileParameters] at h
      by_cases hexc : exclude.contains pname
      · rw [if_pos hexc] at h
        cases hr : calculateProfileParameters ctx ps t ci? exclude with
        | error e =>
          rw [hr] at h
          simp [Except.map] at h
        | ok ps2 =>
          rw [hr] at h
          simp only [Except.map] at h
          injection h with h
          rw [← h]
          exact List.Forall₂.cons ⟨rfl, Or.inl rfl⟩ (ih ps2 hr)
      · rw [if_neg hexc] at h
        cases hv : pfunc ctx t ci? with
        | error e =>
          rw [hv] at h
          simp at h
        | ok v =>
          rw [hv] at h
          cases hr : calculateProfileParameters ctx ps t ci? exclude with
          | error e =>
            rw [hr] at h
            simp [Except.map] at h
          | ok ps2 =>
            rw [hr] at h
            simp only [Except.map] at h
            injection h with h
            rw [← h]
            exact List.Forall₂.cons ⟨rfl, Or.inr hv⟩ (ih ps2 hr)

/-- **C5** (confirmed).  With a non-dict `CALC_INFO`,
`calculate_parameter_Eta` and `calculate_parameter_NuVC` return 0
unconditionally (third and fourth conjuncts, for every line context);
`absorptionCoefficient_Generic` with `DEBUG = None` sets
`VARIABLES['abscoef_debug'] = False` and hence `CALC_INFO = None` for every
line (last conjunct), so every successful HT parameter resolution without
debug output produces `Eta = 0` and `NuVC = 0` regardless of the
`eta_HT_*`/`nu_HT_*` columns of the record. -/
theorem ht_eta_nuvc_zero_without_debug (ctx : Ctx) (t : Trans) (exclude : List String)
    (PARAMS : List (String × ℚ))
    (hcalc : calculateProfileParametersHT ctx t (calcInfoForLine (abscoefDebugOf none))
      exclude = .ok PARAMS) :
    paramsGet PARAMS "Eta" = some 0 ∧ paramsGet PARAMS "NuVC" = some 0 ∧
    (∀ (c : Ctx) (t2 : Trans), calculate_parameter_Eta c t2 none = .ok 0) ∧
    (∀ (c : Ctx) (t2 : Trans), calculate_parameter_NuVC c t2 none = .ok 0) ∧
    calcInfoForLine (abscoefDebugOf none) = none := by
  have hnone : calcInfoForLine (abscoefDebugOf none) = none := rfl
  rw [hnone] at hcalc
  unfold calculateProfileParametersHT at hcalc
  have hf := calculateProfileParameters_ok_forall ctx _ t none exclude PARAMS hcalc
  rcases hf with _ | ⟨h1, hf⟩
  rcases hf with _ | ⟨h2, hf⟩
  rcases hf with _ | ⟨h3, hf⟩
  rcases hf with _ | ⟨h4, hf⟩
  rcases hf with _ | ⟨h5, hf⟩
  rcases hf with _ | ⟨h6, hf⟩
  rcases hf with _ | ⟨h7, hf⟩
  rcases hf with _ | ⟨h8, hf⟩
  rcases hf with _ | ⟨h9, hf⟩
  rcases hf with _ | ⟨h10, hf⟩
  case cons.cons.cons.cons.cons.cons.cons.cons.cons.cons a1 a2 a3 a4 a5 a6 a7 a8 a9 a10 l =>
  cases hf
  obtain ⟨na1, _⟩ := h1
  obtain ⟨na2, _⟩ := h2
  obtain ⟨na3, _⟩ := h3
  obtain ⟨na4, _⟩ := h4
  obtain ⟨na5, _⟩ := h5
  obtain ⟨na6, _⟩ := h6
  obtain ⟨na7, _⟩ := h7
  obtain ⟨na8, hv8⟩ := h8
  obtain ⟨na9, hv9⟩ := h9
  obtain ⟨na10, _⟩ := h10
  have hv8z : a8.2 = 0 := by
    rcases hv8 with h | h
    · exact h
    · simp only [calculate_parameter_Eta] at h
      injection h with h
      rw [← h]
  have hv9z : a9.2 = 0 := by
    rcases hv9 with h | h
    · exact h
    · simp only [calculate_parameter_NuVC] at h
      injection h with h
      rw [← h]
  refine ⟨?_, ?_, fun c t2 => rfl, fun c t2 => rfl, hnone⟩
  · simp [paramsGet, List.find?, na1, na2, na3, na4, na5, na6, na7, na8, hv8z,
      show (("Nu" : String) == "Eta") = false from rfl,
      show (("Sw" : String) == "Eta") = false from rfl,
      show (("GammaD" : String) == "Eta") = false from rfl,
      show (("Gamma0" : String) == "Eta") = false from rfl,
      show (("Delta0" : String) == "Eta") = false from rfl,
      show (("Gamma2" : String) == "Eta") = false from rfl,
      show (("Delta2" : String) == "Eta") = false from rfl,
      show (("Eta" : String) == "Eta") = true from rfl]
  · simp [paramsGet, List.find?, na1, na2, na3, na4, na5, na6, na7, na8, na9, hv9z,
      show (("Nu" : String) == "NuVC") = false from rfl,
      show (("Sw" : String) == "NuVC") = false from rfl,
      show (("GammaD" : String) == "NuVC") = false from rfl,
      show (("Gamma0" : String) == "NuVC") = false from rfl,
      show (("Delta0" : String) == "NuVC") = false from rfl,
      show (("Gamma2" : String) == "NuVC") = false from rfl,
      show (("Delta2" : String) == "NuVC") = false from rfl,
      show (("Eta" : String) == "NuVC") = false from rfl,
      show (("NuVC" : String) == "NuVC") = true from rfl]

/-- **C5** witness: a concrete HT parameter resolution without debug
output; the resulting dict carries `Eta = 0` and `NuVC = 0`. -/
theorem ht_eta_nuvc_zero_without_debug_witness :
    calculateProfileParametersHT ctxUnit transBase (calcInfoForLine (abscoefDebugOf none))
        ["Sw", "GammaD", "Gamma0", "Delta0", "Gamma2", "Delta2", "YRosen"] =
      .ok [("Nu", 2350), ("Sw", 0), ("GammaD", 0), ("Gamma0", 0), ("Delta0", 0),
           ("Gamma2", 0), ("Delta2", 0), ("Eta", 0), ("NuVC", 0), ("YRosen", 0)] ∧
    paramsGet [("Nu", (2350 : ℚ)), ("Sw", 0), ("GammaD", 0), ("Gamma0", 0), ("Delta0", 0),
        ("Gamma2", 0), ("Delta2", 0), ("Eta", 0), ("NuVC", 0), ("YRosen", 0)] "Eta" =
      some 0 ∧
    paramsGet [("Nu", (2350 : ℚ)), ("Sw", 0), ("GammaD", 0), ("Gamma0", 0), ("Delta0", 0),
        ("Gamma2", 0), ("Delta2", 0), ("Eta", 0), ("NuVC", 0), ("YRosen", 0)] "NuVC" =
      some 0 :=
  ⟨rfl,
    (ht_eta_nuvc_zero_without_debug ctxUnit transBase
      ["Sw", "GammaD", "Gamma0", "Delta0", "Gamma2", "Delta2", "YRosen"] _ rfl).1,
    (ht_eta_nuvc_zero_without_debug ctxUnit transBase
      ["Sw", "GammaD", "Gamma0", "Delta0", "Gamma2", "Delta2", "YRosen"] _ rfl).2.1⟩

/-- **C6** (confirmed).  Whenever `CALC_INFO` is a dict whose preceding
entries are readable, `calculate_parameter_NuVC` evaluates the undefined
name `Shift0` in `NuVC = Eta*(Gamma0-1j*Shift0)` and fails with a
`NameError` before reaching its species loop; `calculate_parameter_Eta`,
for a non-empty diluent, evaluates the undefined names `Gamma0`/`Delta0`
while building its `CALC_INFO` record and fails the same way (the first
name evaluated, `Gamma0`, raises). -/
theorem eta_nuvc_undefined_names (ctx : Ctx) (t : Trans) (ci : CalcInfo)
    (g0 d0 eta g2 d2 g2t d2t : ℚ) (species : String) (abun : ℚ)
    (rest : List (String × ℚ))
    (hg0 : ciValue ci "Gamma0" = .ok g0) (hd0 : ciValue ci "Delta0" = .ok d0)
    (heta : ciValue ci "Eta" = .ok eta)
    (hg2 : ciValue ci "Gamma2" = .ok g2) (hd2 : ciValue ci "Delta2" = .ok d2)
    (hdil : t.diluent = (species, abun) :: rest)
    (hg2t : ciMixtureValue ci "Gamma2" species = .ok g2t)
    (hd2t : ciMixtureValue ci "Delta2" species = .ok d2t) :
    calculate_parameter_NuVC ctx t (some ci) = .error (.nameError "Shift0") ∧
    calculate_parameter_Eta ctx t (some ci) = .error (.nameError "Gamma0") := by
  constructor
  · unfold calculate_parameter_NuVC
    dsimp only
    rw [hg0, hd0, heta]
  · unfold calculate_parameter_Eta
    dsimp only
    rw [hg2, hd2, hdil]
    dsimp only
    unfold etaSpeciesLoop
    dsimp only
    rw [hg2t, hd2t]
    rfl

/-- **C6** witness: a populated debug `CALC_INFO` and an air diluent; both
functions fail with the respective `NameError`s. -/
theorem eta_nuvc_undefined_names_witness :
    ciValue ciC6 "Gamma0" = .ok 1 ∧ ciValue ciC6 "Delta0" = .ok 0 ∧
    ciValue ciC6 "Eta" = .ok 0 ∧ ciValue ciC6 "Gamma2" = .ok 1 ∧
    ciValue ciC6 "Delta2" = .ok 0 ∧ transBase.diluent = ("air", 1) :: [] ∧
    ciMixtureValue ciC6 "Gamma2" "air" = .ok 1 ∧
    ciMixtureValue ciC6 "Delta2" "air" = .ok 0 ∧
    (calculate_parameter_NuVC ctxUnit transBase (some ciC6) =
        .error (.nameError "Shift0") ∧
      calculate_parameter_Eta ctxUnit transBase (some ciC6) =
        .error (.nameError "Gamma0")) :=
  ⟨rfl, rfl, rfl, rfl, rfl, rfl, rfl, rfl,
    eta_nuvc_undefined_names ctxUnit transBase ciC6 1 0 0 1 0 1 0 "air" 1 []
      rfl rfl rfl rfl rfl rfl rfl rfl⟩

/-- **C8** witness: the hypotheses of `callKw_extra_key_rejected` hold for
the Doppler declaration and a parameter dict with the extra `Gamma0` key. -/
theorem callKw_extra_key_rejected_witness :
    (("Gamma0", PyVal.num 1) ∈
        [("Nu", PyVal.num 2350), ("GammaD", PyVal.num 1), ("WnGrid", PyVal.arr [2350]),
         ("Sw", PyVal.num 1), ("Gamma0", PyVal.num 1)]) ∧
    (∀ p ∈ dopplerDecl, p.pname ≠ "Gamma0") ∧
    (∃ msg, callKw dopplerDecl
        [("Nu", PyVal.num 2350), ("GammaD", PyVal.num 1), ("WnGrid", PyVal.arr [2350]),
         ("Sw", PyVal.num 1), ("Gamma0", PyVal.num 1)] = .error (.typeError msg)) :=
  ⟨by simp, by simp [dopplerDecl],
    (callKw_extra_key_rejected dopplerDecl _ ("Gamma0", PyVal.num 1) (by simp)
      (by simp [dopplerDecl])).1⟩

end Hapi
